import Mathlib

/-!
Shallow embedding of the CUPTI GPU tracer (xla/backends/profiler/gpu/cupti_tracer.cc
as contained in this repository) together with the per-thread buffer and graph
resource tracking state it manipulates.  Pure functions of the source are
translated into Lean functions; the mutable tracer/thread-local state is passed
explicitly.  Vendor (CUPTI) query calls are modelled by an explicit interface
record of query functions; the mutex guards of the source are erased because the
embedding is sequential.  The C++ field `annotation` is rendered as `annot`.
-/

set_option autoImplicit false

namespace CuptiTrace

/-- Semantic event categories of `CuptiTracerEventType` as used by the tracer. -/
inductive CuptiTracerEventType
  | Kernel
  | MemcpyH2D
  | MemcpyD2H
  | MemcpyD2D
  | MemcpyP2P
  | MemcpyOther
  | Memset
  | MemoryAlloc
  | MemoryFree
  | HostRegister
  | HostUnregister
  | CudaGraph
  | CudaGraphNodeMap
  | Generic
  | Unsupported
deriving DecidableEq

/-- Origin of an event (`CuptiTracerEventSource`). -/
inductive CuptiTracerEventSource
  | DriverCallback
  | Activity
deriving DecidableEq

/-- The driver-API callback ids (`CUpti_CallbackId`) the tracer dispatches on.
Families that no verified claim touches (memcpy, memset, alloc decoders) are
represented by `other`, which the source dispatcher would route through its own
decoder; the graph, graph-node and kernel families are explicit. -/
inductive CallbackId
  | cuLaunchKernel
  | cuLaunchCooperativeKernel
  | cuGraphCreate
  | cuGraphInstantiate
  | cuGraphLaunch
  | cuGraphLaunch_ptsz
  | cuGraphClone
  | cuGraphInstantiate_v2
  | cuGraphInstantiateWithFlags
  | cuGraphInstantiateWithParams
  | cuGraphInstantiateWithParams_ptsz
  | cuGraphAddKernelNode
  | cuGraphAddMemcpyNode
  | cuGraphAddEmptyNode
  | other (cbid : Nat)
deriving DecidableEq

/-- One observed operation (`CuptiTracerEvent`).  The C++ union of payload
variants is flattened; only the members populated by the functions verified
here are kept.  `annot`/`nvtx_range` are the annotation context strings,
`cg_`-prefixed fields are the members of `cuda_graph_info`. -/
structure CuptiTracerEvent where
  type : CuptiTracerEventType
  source : CuptiTracerEventSource
  name : String
  start_time_ns : Nat
  end_time_ns : Nat
  thread_id : Nat
  device_id : Nat
  context_id : Nat
  correlation_id : Nat
  annot : String
  nvtx_range : String
  scope_range_id : Int
  graph_id : Nat
  graph_node_id : Nat
  cg_cbid : CallbackId
  cg_orig_graph_id : Nat
  cg_orig_graph_node_id : Nat
  generic_cbid : CallbackId
deriving DecidableEq

/-- Zero-initialized event, as produced by `CuptiTracerEvent event{};`. -/
def emptyEvent : CuptiTracerEvent :=
  { type := CuptiTracerEventType.Unsupported
    source := CuptiTracerEventSource.DriverCallback
    name := ""
    start_time_ns := 0
    end_time_ns := 0
    thread_id := 0
    device_id := 0
    context_id := 0
    correlation_id := 0
    annot := ""
    nvtx_range := ""
    scope_range_id := 0
    graph_id := 0
    graph_node_id := 0
    cg_cbid := CallbackId.other 0
    cg_orig_graph_id := 0
    cg_orig_graph_node_id := 0
    generic_cbid := CallbackId.other 0 }

/-- Options read from the collector (`CuptiTracerCollectorOptions` as consumed
through `collector_->GetOptions()`). -/
structure CollectorOptions where
  max_callback_api_events : Nat
  max_annotation_strings : Nat
  max_activity_api_events : Nat
deriving DecidableEq

/-- The tracer options fields that the modelled code paths read. -/
structure CuptiTracerOptions where
  cupti_finalize : Bool
  sync_devices_before_stop : Bool
deriving DecidableEq

/-- Pool/cache of fixed-size activity buffers (`CuptiActivityBufferManager`);
buffers are identified by numeric ids, a cached entry pairs a buffer with its
valid byte count. -/
structure CuptiActivityBufferManager where
  pool : List Nat
  cached : List (Nat × Nat)
deriving DecidableEq

/-- Return an unused or already-drained buffer to the pool. -/
def ReclaimBuffer (m : CuptiActivityBufferManager) (b : Nat) : CuptiActivityBufferManager :=
  { m with pool := m.pool ++ [b] }

/-- Record a filled buffer (with its valid size) for later draining. -/
def CacheCuptiFilledActivityBuffer (m : CuptiActivityBufferManager) (b sz : Nat) :
    CuptiActivityBufferManager :=
  { m with cached := m.cached ++ [(b, sz)] }

/-- Atomically hand over all cached buffers and clear the cache. -/
def PopCachedBuffers (m : CuptiActivityBufferManager) :
    List (Nat × Nat) × CuptiActivityBufferManager :=
  (m.cached, { m with cached := [] })

/-- The mutable state of the `CuptiTracer` singleton.  Raw pointers that the
source may leave null (`collector_`, `option_`, `cupti_driver_api_hook_`,
`activity_buffers_`) are `Option`s / a `Bool` presence flag; dereferencing
them while absent is rendered as `none` by the functions below. -/
structure CuptiTracer where
  num_gpus : Nat
  collector : Option CollectorOptions
  option_ : Option CuptiTracerOptions
  cupti_driver_api_hook : Bool
  api_tracing_enabled : Bool
  activity_tracing_enabled : Bool
  pm_sampling_enabled : Bool
  activity_buffers : Option CuptiActivityBufferManager
  num_callback_events : Nat
  cupti_dropped_activity_event_count : Nat
  num_activity_events_in_cached_buffer : Nat
  num_activity_events_in_dropped_buffer : Nat
deriving DecidableEq

/-- `CuptiTracer::TooManyCallbackEvents`: with no collector the guard is
vacuously `true`; otherwise the configured ceiling must be positive and
already reached. -/
def CuptiTracer.TooManyCallbackEvents (t : CuptiTracer) : Bool :=
  match t.collector with
  | some o =>
      decide (0 < o.max_callback_api_events) &&
      decide (o.max_callback_api_events ≤ t.num_callback_events)
  | none => true

/-- `CuptiTracer::TooManyAnnotationStrings`, applied to the calling thread's
current annotation count. -/
def CuptiTracer.TooManyAnnotationStrings (t : CuptiTracer) (count : Nat) : Bool :=
  match t.collector with
  | some o =>
      decide (0 < o.max_annotation_strings) &&
      decide (o.max_annotation_strings ≤ count)
  | none => true

/-- `IncCallbackEventCount` on the tracer's atomic counter. -/
def CuptiTracer.IncCallbackEventCount (t : CuptiTracer) : CuptiTracer :=
  { t with num_callback_events := t.num_callback_events + 1 }

/-- Modelled from the spec: `CallbackAnnotationsAndEvents` (its header is not in
this corpus; only its users are) is the per-thread collection holding an
ordered sequence of events, a deduplicated set of annotation strings (and,
per the `DedupNvtxRange` call in the corpus, a second one for nvtx ranges),
a dropped-event counter, and a scope-range-id parent tree.  The parent tree
maps a scope range id to its parent id. -/
structure CallbackAnnotationsAndEvents where
  events : List CuptiTracerEvent
  annotations : List String
  nvtx_ranges : List String
  num_dropped_events : Nat
  scope_range_id_tree : List (Int × Int)
deriving DecidableEq

/-- Freshly constructed / cleared per-thread collection. -/
def emptyCAE : CallbackAnnotationsAndEvents :=
  { events := []
    annotations := []
    nvtx_ranges := []
    num_dropped_events := 0
    scope_range_id_tree := [] }

/-- Modelled from the spec: insertion into the deduplicated annotation-string
set; the empty string denotes "no annotation" and is not stored.  The stored
view handed back by the C++ dedup has the same content as its argument, so the
event field assignments below use the argument directly. -/
def dedupInsert (set : List String) (x : String) : List String :=
  if x = "" then set
  else if set.contains x then set
  else set ++ [x]

/-- Membership test of the scope-range-id parent tree (a hash map in C++). -/
def treeContains (t : List (Int × Int)) (k : Int) : Bool :=
  t.any (fun q => q.1 == k)

/-- Parent lookup in the scope-range-id parent tree. -/
def treeLookup (t : List (Int × Int)) (k : Int) : Option Int :=
  (t.find? (fun q => q.1 == k)).map (fun q => q.2)

/-- `emplace` on the parent tree: inserts only when the key is absent. -/
def treeEmplace (t : List (Int × Int)) (k v : Int) : List (Int × Int) :=
  if treeContains t k then t else t ++ [(k, v)]

/-- `GuardedCallbackAnnotationsAndEvents::Consume`: swap the buffer with an
empty one, returning (grabbed contents, remaining buffer). -/
def GuardedConsume (s : CallbackAnnotationsAndEvents) :
    CallbackAnnotationsAndEvents × CallbackAnnotationsAndEvents :=
  (s, emptyCAE)

/-- `GuardedCallbackAnnotationsAndEvents::Clear`. -/
def GuardedClear (_s : CallbackAnnotationsAndEvents) : CallbackAnnotationsAndEvents :=
  emptyCAE

/-- `GuardedCallbackAnnotationsAndEvents::IncNumDroppedEvents`. -/
def IncNumDroppedEvents (s : CallbackAnnotationsAndEvents) : CallbackAnnotationsAndEvents :=
  { s with num_dropped_events := s.num_dropped_events + 1 }

/-- The event actually stored by `GuardedCallbackAnnotationsAndEvents::Push`:
if the session-wide annotation budget is exceeded at push time, the annotation
and nvtx-range fields are replaced by the (deduped) empty string; every other
field of the event is kept. -/
def pushedEventOf (t : CuptiTracer) (s : CallbackAnnotationsAndEvents)
    (e : CuptiTracerEvent) : CuptiTracerEvent :=
  { e with
    annot := if t.TooManyAnnotationStrings s.annotations.length then "" else e.annot
    nvtx_range := if t.TooManyAnnotationStrings s.annotations.length then "" else e.nvtx_range }

/-- `GuardedCallbackAnnotationsAndEvents::Push`: dedups (or strips, over
budget) the annotation and nvtx-range strings and appends the event to the
thread's queue.  The event is always appended — Push never fails. -/
def GuardedPush (t : CuptiTracer) (s : CallbackAnnotationsAndEvents)
    (e : CuptiTracerEvent) : CallbackAnnotationsAndEvents :=
  { s with
    annotations := dedupInsert s.annotations
      (if t.TooManyAnnotationStrings s.annotations.length then "" else e.annot)
    nvtx_ranges := dedupInsert s.nvtx_ranges
      (if t.TooManyAnnotationStrings s.annotations.length then "" else e.nvtx_range)
    events := s.events ++ [pushedEventOf t s e] }

/-- Push a whole list of events in order (issuance order on one thread). -/
def pushAll (t : CuptiTracer) (s : CallbackAnnotationsAndEvents) :
    List CuptiTracerEvent → CallbackAnnotationsAndEvents
  | [] => s
  | e :: es => pushAll t (GuardedPush t s e) es

/-- The backward walk of `AddScopeRangeIdSequence`: the pair list holds
(id, parent id) from the sequence tail backward; the loop stops at the first
id already known to the tree and emplaces a parent link for each new id. -/
def addScopePairs (tree : List (Int × Int)) : List (Int × Int) → List (Int × Int)
  | [] => tree
  | (k, v) :: rest =>
      if treeContains tree k then tree
      else addScopePairs (treeEmplace tree k v) rest

/-- `GuardedCallbackAnnotationsAndEvents::AddScopeRangeIdSequence` acting on
the parent tree: for a sequence `[a0, ..., a(n-1)]` with more than one element
it walks `curr` from the back down to (but not including) the head, recording
`curr ↦ curr.pred` for ids not yet known and stopping at the first known id. -/
def AddScopeRangeIdSequence (tree : List (Int × Int)) (seq : List Int) :
    List (Int × Int) :=
  if 1 < seq.length then addScopePairs tree ((seq.drop 1).zip seq).reverse
  else tree

/-- The guarded wrapper of `AddScopeRangeIdSequence` on the whole buffer. -/
def GuardedAddScopeRangeIdSequence (s : CallbackAnnotationsAndEvents)
    (seq : List Int) : CallbackAnnotationsAndEvents :=
  { s with scope_range_id_tree := AddScopeRangeIdSequence s.scope_range_id_tree seq }

/-- Thread-local `GraphResourceCreationInfo`: current graph id, original graph
id (0 if not a clone) and the map from newly created node id to its origin
node id (an association list standing for the hash map, in iteration order). -/
structure GraphResourceCreationInfo where
  graph_id : Nat
  orig_graph_id : Nat
  node_id_map : List (Nat × Nat)
deriving DecidableEq

/-- Enter/exit site of a driver-API callback (`CUpti_ApiCallbackSite`). -/
inductive CallbackSite
  | apiEnter
  | apiExit
deriving DecidableEq

/-- The members of `CUpti_CallbackData` read by the modelled paths.  `context`
is `none` when the driver passes a null context; `paramGraph` stands for the
`hGraph` member of the graph-launch parameter block. -/
structure CallbackData where
  context : Option Nat
  contextUid : Nat
  correlationId : Nat
  functionName : String
  symbolName : Option String
  callbackSite : CallbackSite
  paramGraph : Nat
deriving DecidableEq

/-- Failure kinds of a vendor (CUPTI) call, as distinguished by
`RETURN_IF_CUPTI_ERROR`. -/
inductive CuptiErrKind
  | insufficientPrivileges
  | otherError
deriving DecidableEq

/-- The `absl::Status` values produced by the modelled paths. -/
inductive AbslStatus
  | ok
  | internalError (msg : String)
  | permissionDenied (msg : String)
deriving DecidableEq

/-- The synchronous vendor query calls consumed by the tracer, plus the state
bits (`Disabled`, dropped-record counter, per-buffer record count) the
activity path reads from the vendor library. -/
structure CuptiInterfaceModel where
  getDeviceId : Nat → Except CuptiErrKind Nat
  getGraphExecId : Nat → Nat
  getGraphId : Nat → Nat
  countActivityEvents : Nat → Nat → Nat
  activityDroppedRecords : Except Unit Nat
  disabled : Bool

/-- Ambient per-call environment: the reentrancy counter, the calling thread
id, and the annotation stack's current annotation string and scope-range-id
sequence. -/
structure ApiCallEnv where
  internalCuCall : Nat
  threadId : Nat
  annot : String
  scopeRangeIds : List Int
deriving DecidableEq

/-- `SetKernelEventUponApiExit`. -/
def SetKernelEventUponApiExit (e : CuptiTracerEvent) (device_id : Nat)
    (cb : CallbackData) (tid start_tsc end_tsc : Nat) : CuptiTracerEvent :=
  { e with
    type := CuptiTracerEventType.Kernel
    source := CuptiTracerEventSource.DriverCallback
    name := cb.symbolName.getD cb.functionName
    start_time_ns := start_tsc
    end_time_ns := end_tsc
    thread_id := tid
    device_id := device_id
    context_id := cb.contextUid
    correlation_id := cb.correlationId }

/-- `SetGenericEventUponApiExit`. -/
def SetGenericEventUponApiExit (e : CuptiTracerEvent) (device_id : Nat)
    (cbid : CallbackId) (cb : CallbackData) (tid start_tsc end_tsc : Nat) :
    CuptiTracerEvent :=
  { e with
    type := CuptiTracerEventType.Generic
    source := CuptiTracerEventSource.DriverCallback
    name := cb.functionName
    start_time_ns := start_tsc
    end_time_ns := end_tsc
    thread_id := tid
    device_id := device_id
    context_id := cb.contextUid
    correlation_id := cb.correlationId
    generic_cbid := cbid }

/-- One synthesized `CudaGraphNodeMap` event of the clone/instantiate loop in
`SetCudaGraphEventUponApiExit`; `ts` is `current_start_time` and the window is
one nanosecond wide (`kTimeIncrementNs = 1` is added to the end time only). -/
def mkNodeMapEvent (env : ApiCallEnv) (e : CuptiTracerEvent) (device_id : Nat)
    (cbid : CallbackId) (cb : CallbackData) (ts graph_id orig_graph_id : Nat)
    (p : Nat × Nat) : CuptiTracerEvent :=
  { e with
    type := CuptiTracerEventType.CudaGraphNodeMap
    source := CuptiTracerEventSource.DriverCallback
    name := "CudaGraphNodeMap: " ++ cb.functionName
    start_time_ns := ts
    end_time_ns := ts + 1
    thread_id := env.threadId
    device_id := device_id
    context_id := cb.contextUid
    correlation_id := cb.correlationId
    cg_cbid := cbid
    graph_id := graph_id
    graph_node_id := p.1
    cg_orig_graph_node_id := p.2
    cg_orig_graph_id := orig_graph_id }

/-- The loop of `SetCudaGraphEventUponApiExit` over the node-id map: pushes one
node-map event per entry.  The source initializes `current_start_time` from
the call's start time once and never modifies it inside the loop body, so
every synthesized event carries the same `[ts, ts + 1)` window; the `ts`
parameter is therefore threaded through the recursion unchanged. -/
def pushNodeMapLoop (t : CuptiTracer) (env : ApiCallEnv) (e : CuptiTracerEvent)
    (device_id : Nat) (cbid : CallbackId) (cb : CallbackData)
    (graph_id orig_graph_id : Nat) :
    Nat → List (Nat × Nat) → CallbackAnnotationsAndEvents →
    CallbackAnnotationsAndEvents
  | _, [], buf => buf
  | ts, p :: rest, buf =>
      pushNodeMapLoop t env e device_id cbid cb graph_id orig_graph_id ts rest
        (GuardedPush t buf (mkNodeMapEvent env e device_id cbid cb ts graph_id orig_graph_id p))

/-- The graph-level event produced at the end of `SetCudaGraphEventUponApiExit`. -/
def mkGraphEvent (env : ApiCallEnv) (e : CuptiTracerEvent) (device_id : Nat)
    (cbid : CallbackId) (cb : CallbackData) (start_tsc end_tsc : Nat)
    (g : GraphResourceCreationInfo) : CuptiTracerEvent :=
  { e with
    type := CuptiTracerEventType.CudaGraph
    source := CuptiTracerEventSource.DriverCallback
    name := cb.functionName
    start_time_ns := start_tsc
    end_time_ns := end_tsc
    thread_id := env.threadId
    device_id := device_id
    context_id := cb.contextUid
    correlation_id := cb.correlationId
    cg_cbid := cbid
    graph_id := g.graph_id
    cg_orig_graph_id := g.orig_graph_id }

/-- `SetCudaGraphEventUponApiExit`: on launch callbacks the graph id is
resolved from the exec handle; on clone/instantiate-with-flags callbacks one
node-map event per node-id-map entry is pushed (each with the same 1-ns-wide
window starting at the call's start time, since the loop never advances
`current_start_time`) and the map is cleared; finally the graph-level event is
filled in. -/
def SetCudaGraphEventUponApiExit (env : ApiCallEnv) (itf : CuptiInterfaceModel)
    (t : CuptiTracer) (e : CuptiTracerEvent) (device_id : Nat)
    (cbid : CallbackId) (cb : CallbackData) (start_tsc end_tsc : Nat)
    (g : GraphResourceCreationInfo) (buf : CallbackAnnotationsAndEvents) :
    CuptiTracerEvent × GraphResourceCreationInfo × CallbackAnnotationsAndEvents :=
  let g1 :=
    if cbid = CallbackId.cuGraphLaunch ∨ cbid = CallbackId.cuGraphLaunch_ptsz then
      { g with graph_id := itf.getGraphExecId cb.paramGraph, orig_graph_id := 0 }
    else g
  let buf1 :=
    if cbid = CallbackId.cuGraphClone ∨ cbid = CallbackId.cuGraphInstantiateWithFlags then
      pushNodeMapLoop t env e device_id cbid cb g1.graph_id g1.orig_graph_id
        start_tsc g1.node_id_map buf
    else buf
  let g2 :=
    if cbid = CallbackId.cuGraphClone ∨ cbid = CallbackId.cuGraphInstantiateWithFlags then
      { g1 with node_id_map := [] }
    else g1
  (mkGraphEvent env e device_id cbid cb start_tsc end_tsc g2, g2, buf1)

/-- `SetCudaGraphNodeEventUponApiExit` (the `cuGraphAdd*` path): the source
unconditionally dereferences `node_id_map.begin()`, so the embedding returns
`none` when the thread-local node-id map is empty; otherwise the event carries
the first entry's node id and origin node id and the map is cleared. -/
def SetCudaGraphNodeEventUponApiExit (e : CuptiTracerEvent) (device_id : Nat)
    (cbid : CallbackId) (cb : CallbackData) (tid start_tsc end_tsc : Nat)
    (g : GraphResourceCreationInfo) :
    Option (CuptiTracerEvent × GraphResourceCreationInfo) :=
  match g.node_id_map with
  | [] => none
  | p :: _ =>
      some
        ({ e with
            type := CuptiTracerEventType.CudaGraph
            source := CuptiTracerEventSource.DriverCallback
            name := cb.functionName
            start_time_ns := start_tsc
            end_time_ns := end_tsc
            thread_id := tid
            device_id := device_id
            context_id := cb.contextUid
            correlation_id := cb.correlationId
            cg_cbid := cbid
            graph_id := g.graph_id
            graph_node_id := p.1
            cg_orig_graph_id := g.orig_graph_id
            cg_orig_graph_node_id := p.2 },
          { g with node_id_map := [] })

/-- The dispatcher `SetCallbackEventUponApiExit` restricted to the modelled
callback families (kernel, graph, graph-node-add, generic fallback). -/
def SetCallbackEventUponApiExit (env : ApiCallEnv) (itf : CuptiInterfaceModel)
    (t : CuptiTracer) (e : CuptiTracerEvent) (device_id : Nat)
    (cbid : CallbackId) (cb : CallbackData) (start_tsc end_tsc : Nat)
    (g : GraphResourceCreationInfo) (buf : CallbackAnnotationsAndEvents) :
    Option (CuptiTracerEvent × GraphResourceCreationInfo × CallbackAnnotationsAndEvents) :=
  match cbid with
  | CallbackId.cuLaunchKernel | CallbackId.cuLaunchCooperativeKernel =>
      some (SetKernelEventUponApiExit e device_id cb env.threadId start_tsc end_tsc, g, buf)
  | CallbackId.cuGraphCreate | CallbackId.cuGraphInstantiate
  | CallbackId.cuGraphLaunch | CallbackId.cuGraphLaunch_ptsz
  | CallbackId.cuGraphClone | CallbackId.cuGraphInstantiate_v2
  | CallbackId.cuGraphInstantiateWithFlags | CallbackId.cuGraphInstantiateWithParams
  | CallbackId.cuGraphInstantiateWithParams_ptsz =>
      some (SetCudaGraphEventUponApiExit env itf t e device_id cbid cb start_tsc end_tsc g buf)
  | CallbackId.cuGraphAddKernelNode | CallbackId.cuGraphAddMemcpyNode
  | CallbackId.cuGraphAddEmptyNode =>
      match SetCudaGraphNodeEventUponApiExit e device_id cbid cb env.threadId start_tsc end_tsc g with
      | none => none
      | some (e1, g1) => some (e1, g1, buf)
  | CallbackId.other _ =>
      some (SetGenericEventUponApiExit e device_id cbid cb env.threadId start_tsc end_tsc, g, buf)

/-- The fresh event built by `AddDriverApiCallbackEvent` before dispatch. -/
def initCallbackEvent (env : ApiCallEnv) (cb : CallbackData) : CuptiTracerEvent :=
  { emptyEvent with
    correlation_id := cb.correlationId
    annot := env.annot
    nvtx_range := ""
    scope_range_id := (env.scopeRangeIds.getLast?).getD 0 }

/-- `AddDriverApiCallbackEvent`: drops the event (incrementing the per-thread
dropped counter) once the callback-event ceiling is hit; otherwise counts the
event, records the scope-range-id sequence, builds the typed event and pushes
it.  `none` marks the undefined behaviour inherited from
`SetCudaGraphNodeEventUponApiExit` on an empty node-id map. -/
def AddDriverApiCallbackEvent (env : ApiCallEnv) (itf : CuptiInterfaceModel)
    (t : CuptiTracer) (g : GraphResourceCreationInfo)
    (buf : CallbackAnnotationsAndEvents) (device_id start_tsc end_tsc : Nat)
    (cbid : CallbackId) (cb : CallbackData) :
    Option (AbslStatus × CuptiTracer × GraphResourceCreationInfo × CallbackAnnotationsAndEvents) :=
  if t.TooManyCallbackEvents then
    some (AbslStatus.ok, t, g, IncNumDroppedEvents buf)
  else
    let t1 := t.IncCallbackEventCount
    let buf1 := GuardedAddScopeRangeIdSequence buf env.scopeRangeIds
    match SetCallbackEventUponApiExit env itf t1 (initCallbackEvent env cb) device_id cbid cb
        start_tsc end_tsc g buf1 with
    | none => none
    | some (e1, g1, buf2) => some (AbslStatus.ok, t1, g1, GuardedPush t1 buf2 e1)

/-- `CuptiTracer::HandleDriverApiCallback`: skips callbacks issued by the
tracer's own bookkeeping, reports a recoverable internal error when no context
is attached or when the resolved device id is out of range (vendor errors on
the device-id query map per `RETURN_IF_CUPTI_ERROR`), and otherwise forwards
the exit to `AddDriverApiCallbackEvent` (the enter site only stashes the start
timestamp, which the embedding passes along explicitly). -/
def HandleDriverApiCallback (env : ApiCallEnv) (itf : CuptiInterfaceModel)
    (t : CuptiTracer) (g : GraphResourceCreationInfo)
    (buf : CallbackAnnotationsAndEvents) (cbid : CallbackId) (cb : CallbackData)
    (start_tsc end_tsc : Nat) :
    Option (AbslStatus × CuptiTracer × GraphResourceCreationInfo × CallbackAnnotationsAndEvents) :=
  if env.internalCuCall ≠ 0 then some (AbslStatus.ok, t, g, buf)
  else
    match cb.context with
    | none => some (AbslStatus.internalError "cutpi callback without context", t, g, buf)
    | some ctx =>
      match itf.getDeviceId ctx with
      | Except.error CuptiErrKind.insufficientPrivileges =>
          some (AbslStatus.permissionDenied "CUPTI needs root access", t, g, buf)
      | Except.error CuptiErrKind.otherError =>
          some (AbslStatus.internalError "CUPTI call error: GetDeviceId", t, g, buf)
      | Except.ok device_id =>
          if t.num_gpus ≤ device_id then
            some (AbslStatus.internalError ("Invalid device id:" ++ toString device_id), t, g, buf)
          else
            match cb.callbackSite with
            | CallbackSite.apiEnter => some (AbslStatus.ok, t, g, buf)
            | CallbackSite.apiExit =>
                AddDriverApiCallbackEvent env itf t g buf device_id start_tsc end_tsc cbid cb

/-- Repeat the same driver-API exit callback `k` times, threading tracer,
graph-info and buffer state (models a burst of identical intercepted calls on
one thread). -/
def runDriverApiCallbackEvents (env : ApiCallEnv) (itf : CuptiInterfaceModel)
    (device_id start_tsc end_tsc : Nat) (cbid : CallbackId) (cb : CallbackData) :
    Nat → CuptiTracer × GraphResourceCreationInfo × CallbackAnnotationsAndEvents →
    Option (CuptiTracer × GraphResourceCreationInfo × CallbackAnnotationsAndEvents)
  | 0, st => some st
  | k + 1, (t, g, buf) =>
      match AddDriverApiCallbackEvent env itf t g buf device_id start_tsc end_tsc cbid cb with
      | none => none
      | some (_, t1, g1, buf1) =>
          runDriverApiCallbackEvents env itf device_id start_tsc end_tsc cbid cb k (t1, g1, buf1)

/-- Reasons the source passes to `OnEventsDropped` during `Disable`. -/
inductive DropReason
  | cuptiLib
  | droppedBuffer
deriving DecidableEq

/-- Observable calls made by the lifecycle operations, in program order:
vendor teardown calls and the notifications delivered to the external
collector. -/
inductive TracerEffect
  | pmStopSampler
  | apiVendorDisable
  | unsubscribeVendor
  | activityVendorDisable
  | activityFlushAll
  | cleanUp
  | finalizeVendor
  | syncAndFlush
  | setTracingEndTime
  | popCachedBuffers
  | onCollectedCallbackData
  | onCachedActivityBuffers
  | onEventsDropped (reason : DropReason) (count : Nat)
  | collectorFlush
  | annotStackOff
deriving DecidableEq

/-- `CuptiTracer::DisableApiTracing`: a no-op when api tracing is off;
otherwise it clears the flag and issues the resource/driver callback disables
and the unsubscribe (reading `option_->cbids_selected`, hence `none` if the
options are absent while the flag is set). -/
def DisableApiTracing (s : CuptiTracer) : Option (CuptiTracer × List TracerEffect) :=
  if s.api_tracing_enabled = false then some (s, [])
  else
    match s.option_ with
    | none => none
    | some _ =>
        some ({ s with api_tracing_enabled := false },
          [TracerEffect.apiVendorDisable, TracerEffect.unsubscribeVendor])

/-- `CuptiTracer::DisableActivityTracing`: when activity tracing is on it
disables the selected activity kinds and force-flushes (reading `option_`);
the flag is cleared unconditionally. -/
def DisableActivityTracing (s : CuptiTracer) : Option (CuptiTracer × List TracerEffect) :=
  if s.activity_tracing_enabled then
    match s.option_ with
    | none => none
    | some _ =>
        some ({ s with activity_tracing_enabled := false },
          [TracerEffect.activityVendorDisable, TracerEffect.activityFlushAll])
  else some ({ s with activity_tracing_enabled := false }, [])

/-- `CuptiTracer::Disable`: stop the pm sampler if running, disable the two
tracing sub-states, clean up, finalize (dereferences `option_`), sync-flush
through the driver-api hook (dereferences the hook), then notify the collector
(dereferences `collector_`): end timestamp, gathered callback data, cached
activity buffers if the buffer manager is live, dropped-event reports, flush;
finally release collector, options, hook and turn the annotation stack off.
`none` marks a null dereference of a member already released. -/
def CuptiTracer.Disable (s : CuptiTracer) : Option (CuptiTracer × List TracerEffect) :=
  let pmFx : List TracerEffect :=
    if s.pm_sampling_enabled then [TracerEffect.pmStopSampler] else []
  let s0 : CuptiTracer := { s with pm_sampling_enabled := false }
  match DisableApiTracing s0 with
  | none => none
  | some (s1, apiFx) =>
    match DisableActivityTracing s1 with
    | none => none
    | some (s2, actFx) =>
      match s2.option_ with
      | none => none
      | some opt =>
        let finFx : List TracerEffect :=
          if opt.cupti_finalize then [TracerEffect.finalizeVendor] else []
        if s2.cupti_driver_api_hook = false then none
        else
          match s2.collector with
          | none => none
          | some _ =>
            let actBufFx : List TracerEffect :=
              match s2.activity_buffers with
              | some _ => [TracerEffect.onCachedActivityBuffers]
              | none => []
            let dropFx1 : List TracerEffect :=
              if 0 < s2.cupti_dropped_activity_event_count then
                [TracerEffect.onEventsDropped DropReason.cuptiLib
                  s2.cupti_dropped_activity_event_count]
              else []
            let dropFx2 : List TracerEffect :=
              if 0 < s2.num_activity_events_in_dropped_buffer then
                [TracerEffect.onEventsDropped DropReason.droppedBuffer
                  s2.num_activity_events_in_dropped_buffer]
              else []
            some
              ({ s2 with
                  activity_buffers := none
                  collector := none
                  option_ := none
                  cupti_driver_api_hook := false },
                pmFx ++ apiFx ++ actFx ++ [TracerEffect.cleanUp] ++ finFx ++
                  [TracerEffect.syncAndFlush, TracerEffect.setTracingEndTime,
                    TracerEffect.onCollectedCallbackData] ++
                  actBufFx ++ dropFx1 ++ dropFx2 ++
                  [TracerEffect.collectorFlush, TracerEffect.annotStackOff])

/-- `CuptiTracer::FlushEventsToCollector`: a no-op when neither sub-state is
enabled; otherwise pops the cached activity buffers first (when activity
tracing is on), delivers the gathered callback data (when api tracing is on),
and then always delivers the cached activity buffers to the collector. -/
def CuptiTracer.FlushEventsToCollector (s : CuptiTracer) :
    Option (CuptiTracer × List TracerEffect) :=
  if s.api_tracing_enabled = false ∧ s.activity_tracing_enabled = false then
    some (s, [])
  else
    let popped : Option (CuptiTracer × List TracerEffect) :=
      if s.activity_tracing_enabled then
        match s.activity_buffers with
        | none => none
        | some mgr =>
            some ({ s with activity_buffers := some (PopCachedBuffers mgr).2 },
              [TracerEffect.popCachedBuffers])
      else some (s, [])
    match popped with
    | none => none
    | some (s1, popFx) =>
      match s1.collector with
      | none => none
      | some _ =>
          let cbFx : List TracerEffect :=
            if s1.api_tracing_enabled then [TracerEffect.onCollectedCallbackData] else []
          some (s1, popFx ++ cbFx ++ [TracerEffect.onCachedActivityBuffers])

/-- `CuptiTracer::ProcessActivityBuffer`: reclaims empty/stale buffers, fails
when the vendor library reports itself disabled, accumulates the vendor's
dropped-record count, and then either drops the freshly filled buffer (adding
its event count to the dropped-in-dropped-buffer counter and reclaiming it)
when the cached-event cap is already reached, or caches it and grows the
cached-event count.  `none` marks dereferencing an absent buffer manager or
collector. -/
def ProcessActivityBuffer (itf : CuptiInterfaceModel) (s : CuptiTracer)
    (b size : Nat) : Option (AbslStatus × CuptiTracer) :=
  match s.activity_buffers with
  | none => none
  | some mgr =>
    if size = 0 then
      some (AbslStatus.ok, { s with activity_buffers := some (ReclaimBuffer mgr b) })
    else if s.activity_tracing_enabled = false then
      some (AbslStatus.ok, { s with activity_buffers := some (ReclaimBuffer mgr b) })
    else if itf.disabled then
      some (AbslStatus.internalError "Disabled.",
        { s with activity_buffers := some (ReclaimBuffer mgr b) })
    else
      let s1 :=
        match itf.activityDroppedRecords with
        | Except.ok n =>
            { s with cupti_dropped_activity_event_count :=
                s.cupti_dropped_activity_event_count + n }
        | Except.error _ => s
      match s1.collector with
      | none => none
      | some copts =>
        let cnt := itf.countActivityEvents b size
        if 0 < copts.max_activity_api_events ∧
            copts.max_activity_api_events ≤ s1.num_activity_events_in_cached_buffer then
          some (AbslStatus.ok,
            { s1 with
                num_activity_events_in_dropped_buffer :=
                  s1.num_activity_events_in_dropped_buffer + cnt
                activity_buffers := some (ReclaimBuffer mgr b) })
        else
          some (AbslStatus.ok,
            { s1 with
                num_activity_events_in_cached_buffer :=
                  s1.num_activity_events_in_cached_buffer + cnt
                activity_buffers := some (CacheCuptiFilledActivityBuffer mgr b size) })

/-- Concrete vendor-interface instance used by witnesses: device id 0, 3
activity records per buffer, no dropped records, library not disabled. -/
def witnessItf : CuptiInterfaceModel :=
  { getDeviceId := fun _ => Except.ok 0
    getGraphExecId := fun n => n
    getGraphId := fun n => n
    countActivityEvents := fun _ _ => 3
    activityDroppedRecords := Except.ok 0
    disabled := false }

/-- Concrete tracer state with activity-event cap 2 and 5 events already
cached (over the cap). -/
def witnessTracerOverCap : CuptiTracer :=
  { num_gpus := 1
    collector := some ⟨0, 0, 2⟩
    option_ := none
    cupti_driver_api_hook := true
    api_tracing_enabled := false
    activity_tracing_enabled := true
    pm_sampling_enabled := false
    activity_buffers := some ⟨[], []⟩
    num_callback_events := 0
    cupti_dropped_activity_event_count := 0
    num_activity_events_in_cached_buffer := 5
    num_activity_events_in_dropped_buffer := 0 }

/-- Concrete tracer state with activity-event cap 2 and 1 event cached (under
the cap). -/
def witnessTracerUnderCap : CuptiTracer :=
  { witnessTracerOverCap with num_activity_events_in_cached_buffer := 1 }

/-- Concrete fully-enabled tracer state (no pm sampling, no dropped events). -/
def witnessEnabledTracer : CuptiTracer :=
  { num_gpus := 1
    collector := some ⟨0, 0, 0⟩
    option_ := some ⟨false, false⟩
    cupti_driver_api_hook := true
    api_tracing_enabled := true
    activity_tracing_enabled := true
    pm_sampling_enabled := false
    activity_buffers := some ⟨[], []⟩
    num_callback_events := 0
    cupti_dropped_activity_event_count := 0
    num_activity_events_in_cached_buffer := 0
    num_activity_events_in_dropped_buffer := 0 }

/-- The state `CuptiTracer::Disable` leaves behind when starting from
`witnessEnabledTracer`: released collector, options, hook and buffers. -/
def witnessDisabledTracer : CuptiTracer :=
  { witnessEnabledTracer with
    api_tracing_enabled := false
    activity_tracing_enabled := false
    activity_buffers := none
    collector := none
    option_ := none
    cupti_driver_api_hook := false }

/-- A tracer whose sub-states are all off but whose collector/options/hook are
still populated (as after `Enable` failed early, before any `Disable`). -/
def witnessIdleTracer : CuptiTracer :=
  { witnessEnabledTracer with
    api_tracing_enabled := false
    activity_tracing_enabled := false }

/-! Helper lemmas about the scope-range-id parent tree. -/

theorem treeContains_append (t l : List (Int × Int)) (k : Int) :
    treeContains (t ++ l) k = (treeContains t k || treeContains l k) := by
  simp [treeContains]

theorem treeContains_emplace_self (tree : List (Int × Int)) (a b : Int) :
    treeContains (treeEmplace tree a b) a = true := by
  by_cases hc : treeContains tree a = true
  · simp [treeEmplace, hc]
  · have he : treeEmplace tree a b = tree ++ [(a, b)] := by simp [treeEmplace, hc]
    rw [he, treeContains_append]
    simp [treeContains]

theorem treeContains_emplace_mono (tree : List (Int × Int)) (a b k : Int)
    (h : treeContains tree k = true) :
    treeContains (treeEmplace tree a b) k = true := by
  by_cases hc : treeContains tree a = true
  · simpa [treeEmplace, hc] using h
  · simp [treeEmplace, hc, treeContains_append, h]

theorem addScopePairs_contains_mono (ps : List (Int × Int)) :
    ∀ (tree : List (Int × Int)) (k : Int), treeContains tree k = true →
      treeContains (addScopePairs tree ps) k = true := by
  induction ps with
  | nil => intro tree k h; simpa [addScopePairs] using h
  | cons p rest ih =>
      intro tree k h
      obtain ⟨a, b⟩ := p
      by_cases hc : treeContains tree a = true
      · simpa [addScopePairs, hc] using h
      · simp only [addScopePairs, hc, if_false, Bool.false_eq_true]
        exact ih (treeEmplace tree a b) k (treeContains_emplace_mono tree a b k h)

theorem treeLookup_append_of_contains (t : List (Int × Int)) (p : Int × Int)
    (k : Int) (h : treeContains t k = true) :
    treeLookup (t ++ [p]) k = treeLookup t k := by
  induction t with
  | nil => simp [treeContains] at h
  | cons q rest ih =>
      by_cases hq : q.1 == k
      · simp [treeLookup, List.find?, hq]
      · have h1 : treeContains rest k = true := by
          simpa [treeContains, hq] using h
        simpa [treeLookup, List.find?, hq] using ih h1

theorem treeLookup_emplace_of_contains (tree : List (Int × Int)) (a b k : Int)
    (h : treeContains tree k = true) :
    treeLookup (treeEmplace tree a b) k = treeLookup tree k := by
  by_cases hc : treeContains tree a = true
  · simp [treeEmplace, hc]
  · simp only [treeEmplace, hc, if_false, Bool.false_eq_true]
    exact treeLookup_append_of_contains tree (a, b) k h

theorem addScopePairs_lookup_mono (ps : List (Int × Int)) :
    ∀ (tree : List (Int × Int)) (k : Int), treeContains tree k = true →
      treeLookup (addScopePairs tree ps) k = treeLookup tree k := by
  induction ps with
  | nil => intro tree k _; simp [addScopePairs]
  | cons p rest ih =>
      intro tree k h
      obtain ⟨a, b⟩ := p
      by_cases hc : treeContains tree a = true
      · simp [addScopePairs, hc]
      · simp only [addScopePairs, hc, if_false, Bool.false_eq_true]
        rw [ih (treeEmplace tree a b) k (treeContains_emplace_mono tree a b k h)]
        exact treeLookup_emplace_of_contains tree a b k h

theorem addScopePairs_idem (ps tree : List (Int × Int)) :
    addScopePairs (addScopePairs tree ps) ps = addScopePairs tree ps := by
  cases ps with
  | nil => rfl
  | cons p rest =>
      obtain ⟨a, b⟩ := p
      by_cases hc : treeContains tree a = true
      · simp [addScopePairs, hc]
      · have h2 : treeContains (addScopePairs (treeEmplace tree a b) rest) a = true :=
          addScopePairs_contains_mono rest (treeEmplace tree a b) a
            (treeContains_emplace_self tree a b)
        simp [addScopePairs, hc, h2]

/-- C9: `AddScopeRangeIdSequence` is idempotent — a second application of the
same id sequence leaves the parent tree unchanged — and it records parent
links only for ids not yet known: every id already in the tree keeps its
membership and its recorded parent. -/
theorem addScopeRangeIdSequence_idempotent (tree : List (Int × Int))
    (seq : List Int) :
    AddScopeRangeIdSequence (AddScopeRangeIdSequence tree seq) seq
        = AddScopeRangeIdSequence tree seq ∧
    ∀ k, treeContains tree k = true →
      treeContains (AddScopeRangeIdSequence tree seq) k = true ∧
      treeLookup (AddScopeRangeIdSequence tree seq) k = treeLookup tree k := by
  constructor
  · by_cases h : 1 < seq.length
    · simp only [AddScopeRangeIdSequence, h, if_true]
      exact addScopePairs_idem _ _
    · simp [AddScopeRangeIdSequence, h]
  · intro k hk
    by_cases h : 1 < seq.length
    · simp only [AddScopeRangeIdSequence, h, if_true]
      exact ⟨addScopePairs_contains_mono _ _ _ hk, addScopePairs_lookup_mono _ _ _ hk⟩
    · simp [AddScopeRangeIdSequence, h, hk]

/-- Witness for C9 at a concrete tree and sequence. -/
theorem addScopeRangeIdSequence_idempotent_witness :
    treeContains [((5 : Int), (1 : Int))] 5 = true ∧
    AddScopeRangeIdSequence
        (AddScopeRangeIdSequence [((5 : Int), (1 : Int))] [1, 2, 3]) [1, 2, 3]
      = AddScopeRangeIdSequence [((5 : Int), (1 : Int))] [1, 2, 3] ∧
    treeContains (AddScopeRangeIdSequence [((5 : Int), (1 : Int))] [1, 2, 3]) 5 = true ∧
    treeLookup (AddScopeRangeIdSequence [((5 : Int), (1 : Int))] [1, 2, 3]) 5
      = treeLookup [((5 : Int), (1 : Int))] 5 := by
  refine ⟨by decide, (addScopeRangeIdSequence_idempotent _ _).1, ?_, ?_⟩
  · exact ((addScopeRangeIdSequence_idempotent [((5 : Int), (1 : Int))] [1, 2, 3]).2 5 (by decide)).1
  · exact ((addScopeRangeIdSequence_idempotent [((5 : Int), (1 : Int))] [1, 2, 3]).2 5 (by decide)).2

/-! Helper lemmas about `GuardedPush`. -/

theorem pushedEventOf_no_budget (t : CuptiTracer) (s : CallbackAnnotationsAndEvents)
    (e : CuptiTracerEvent)
    (h : t.TooManyAnnotationStrings s.annotations.length = false) :
    pushedEventOf t s e = e := by
  simp [pushedEventOf, h]

theorem tooManyAnnot_zero_cap (t : CuptiTracer) (copts : CollectorOptions) (n : Nat)
    (hcol : t.collector = some copts) (hmax : copts.max_annotation_strings = 0) :
    t.TooManyAnnotationStrings n = false := by
  simp [CuptiTracer.TooManyAnnotationStrings, hcol, hmax]

theorem pushAll_events_zero_cap (t : CuptiTracer) (copts : CollectorOptions)
    (hcol : t.collector = some copts) (hmax : copts.max_annotation_strings = 0) :
    ∀ (es : List CuptiTracerEvent) (s : CallbackAnnotationsAndEvents),
      (pushAll t s es).events = s.events ++ es := by
  intro es
  induction es with
  | nil => intro s; simp [pushAll]
  | cons e es ih =>
      intro s
      have h := tooManyAnnot_zero_cap t copts s.annotations.length hcol hmax
      calc (pushAll t s (e :: es)).events
          = (pushAll t (GuardedPush t s e) es).events := rfl
        _ = (GuardedPush t s e).events ++ es := ih (GuardedPush t s e)
        _ = (s.events ++ [pushedEventOf t s e]) ++ es := rfl
        _ = s.events ++ e :: es := by
              rw [pushedEventOf_no_budget t s e h]; simp

/-- C8: for every sequence of Push calls on one thread's buffer (with no
annotation budget configured, so annotations are kept verbatim), Consume
returns exactly the pushed events in issuance order, leaves an empty buffer
behind, and events pushed afterwards accumulate in an empty buffer. -/
theorem consume_returns_pushed (t : CuptiTracer) (copts : CollectorOptions)
    (es es2 : List CuptiTracerEvent)
    (hcol : t.collector = some copts) (hmax : copts.max_annotation_strings = 0) :
    (GuardedConsume (pushAll t emptyCAE es)).1.events = es ∧
    (∀ s, (GuardedConsume s).2 = emptyCAE) ∧
    (GuardedConsume
        (pushAll t (GuardedConsume (pushAll t emptyCAE es)).2 es2)).1.events = es2 := by
  refine ⟨?_, fun s => rfl, ?_⟩
  · have h := pushAll_events_zero_cap t copts hcol hmax es emptyCAE
    simpa [GuardedConsume, emptyCAE] using h
  · have h := pushAll_events_zero_cap t copts hcol hmax es2 emptyCAE
    simpa [GuardedConsume, emptyCAE] using h

/-- Witness for C8 at a concrete tracer and two concrete event lists. -/
theorem consume_returns_pushed_witness :
    ({ num_gpus := 1, collector := some ⟨0, 0, 0⟩, option_ := none
       cupti_driver_api_hook := true, api_tracing_enabled := true
       activity_tracing_enabled := false, pm_sampling_enabled := false
       activity_buffers := none, num_callback_events := 0
       cupti_dropped_activity_event_count := 0
       num_activity_events_in_cached_buffer := 0
       num_activity_events_in_dropped_buffer := 0 } : CuptiTracer).collector
      = some ⟨0, 0, 0⟩ ∧
    (GuardedConsume (pushAll
        { num_gpus := 1, collector := some ⟨0, 0, 0⟩, option_ := none
          cupti_driver_api_hook := true, api_tracing_enabled := true
          activity_tracing_enabled := false, pm_sampling_enabled := false
          activity_buffers := none, num_callback_events := 0
          cupti_dropped_activity_event_count := 0
          num_activity_events_in_cached_buffer := 0
          num_activity_events_in_dropped_buffer := 0 } emptyCAE
        [{ emptyEvent with name := "a", annot := "x" },
         { emptyEvent with name := "b", annot := "y" }])).1.events
      = [{ emptyEvent with name := "a", annot := "x" },
         { emptyEvent with name := "b", annot := "y" }] := by
  constructor
  · rfl
  · exact (consume_returns_pushed _ ⟨0, 0, 0⟩
      [{ emptyEvent with name := "a", annot := "x" },
       { emptyEvent with name := "b", annot := "y" }] [] rfl rfl).1

/-- The annotation budget check is monotone under Push: once over budget the
annotation set stops growing, so the check stays true. -/
theorem tooManyAnnot_push_mono (t : CuptiTracer) (s : CallbackAnnotationsAndEvents)
    (e : CuptiTracerEvent)
    (h : t.TooManyAnnotationStrings s.annotations.length = true) :
    t.TooManyAnnotationStrings (GuardedPush t s e).annotations.length = true := by
  have : (GuardedPush t s e).annotations = s.annotations := by
    simp [GuardedPush, h, dedupInsert]
  rw [this]; exact h

/-- C3: Push never fails.  Below the annotation budget the pushed event keeps
its annotation and nvtx-range fields intact (they are deduped into the string
sets and the event is appended); once the budget is exceeded, every
subsequently pushed event is stored with empty annotation and nvtx-range
fields while the events already in the buffer are left untouched. -/
theorem push_budget_degradation (t : CuptiTracer) (s : CallbackAnnotationsAndEvents)
    (e : CuptiTracerEvent) (es : List CuptiTracerEvent) :
    (t.TooManyAnnotationStrings s.annotations.length = false →
       GuardedPush t s e
         = { s with
              annotations := dedupInsert s.annotations e.annot
              nvtx_ranges := dedupInsert s.nvtx_ranges e.nvtx_range
              events := s.events ++ [e] }) ∧
    (t.TooManyAnnotationStrings s.annotations.length = true →
       ∃ stored : List CuptiTracerEvent,
         (pushAll t s es).events = s.events ++ stored ∧
         stored.length = es.length ∧
         ∀ i, i < stored.length →
           stored.getD i emptyEvent
             = { es.getD i emptyEvent with annot := "", nvtx_range := "" }) := by
  constructor
  · intro h
    simp [GuardedPush, pushedEventOf, h]
  · intro hover
    clear e
    induction es generalizing s with
    | nil =>
        refine ⟨[], by simp [pushAll], rfl, ?_⟩
        intro i hi
        simp at hi
    | cons e es ih =>
        obtain ⟨stored, hev, hlen, hfacts⟩ :=
          ih (GuardedPush t s e) (tooManyAnnot_push_mono t s e hover)
        refine ⟨pushedEventOf t s e :: stored, ?_, by simp [hlen], ?_⟩
        · calc (pushAll t s (e :: es)).events
              = (pushAll t (GuardedPush t s e) es).events := rfl
            _ = (GuardedPush t s e).events ++ stored := hev
            _ = (s.events ++ [pushedEventOf t s e]) ++ stored := rfl
            _ = s.events ++ pushedEventOf t s e :: stored := by simp
        · intro i hi
          cases i with
          | zero => simp [pushedEventOf, hover]
          | succ j =>
              have hj : j < stored.length := by simpa using hi
              simpa using hfacts j hj

/-- Witness for C3: one application below the budget (annotation kept) and one
run over the budget (annotations stripped, events kept). -/
theorem push_budget_degradation_witness :
    (({ num_gpus := 1, collector := some ⟨0, 1, 0⟩, option_ := none
        cupti_driver_api_hook := true, api_tracing_enabled := true
        activity_tracing_enabled := false, pm_sampling_enabled := false
        activity_buffers := none, num_callback_events := 0
        cupti_dropped_activity_event_count := 0
        num_activity_events_in_cached_buffer := 0
        num_activity_events_in_dropped_buffer := 0 } : CuptiTracer).TooManyAnnotationStrings
        (emptyCAE.annotations.length) = false ∧
      GuardedPush
          { num_gpus := 1, collector := some ⟨0, 1, 0⟩, option_ := none
            cupti_driver_api_hook := true, api_tracing_enabled := true
            activity_tracing_enabled := false, pm_sampling_enabled := false
            activity_buffers := none, num_callback_events := 0
            cupti_dropped_activity_event_count := 0
            num_activity_events_in_cached_buffer := 0
            num_activity_events_in_dropped_buffer := 0 }
          emptyCAE { emptyEvent with annot := "ctx" }
        = { emptyCAE with
             annotations := dedupInsert emptyCAE.annotations "ctx"
             nvtx_ranges := dedupInsert emptyCAE.nvtx_ranges ""
             events := emptyCAE.events ++ [{ emptyEvent with annot := "ctx" }] }) ∧
    (({ num_gpus := 1, collector := some ⟨0, 1, 0⟩, option_ := none
        cupti_driver_api_hook := true, api_tracing_enabled := true
        activity_tracing_enabled := false, pm_sampling_enabled := false
        activity_buffers := none, num_callback_events := 0
        cupti_dropped_activity_event_count := 0
        num_activity_events_in_cached_buffer := 0
        num_activity_events_in_dropped_buffer := 0 } : CuptiTracer).TooManyAnnotationStrings
        ({ emptyCAE with annotations := ["ctx"] } : CallbackAnnotationsAndEvents).annotations.length = true ∧
      ∃ stored : List CuptiTracerEvent,
        (pushAll
            { num_gpus := 1, collector := some ⟨0, 1, 0⟩, option_ := none
              cupti_driver_api_hook := true, api_tracing_enabled := true
              activity_tracing_enabled := false, pm_sampling_enabled := false
              activity_buffers := none, num_callback_events := 0
              cupti_dropped_activity_event_count := 0
              num_activity_events_in_cached_buffer := 0
              num_activity_events_in_dropped_buffer := 0 }
            { emptyCAE with annotations := ["ctx"] }
            [{ emptyEvent with annot := "late" }]).events
          = ({ emptyCAE with annotations := ["ctx"] } : CallbackAnnotationsAndEvents).events ++ stored ∧
        stored.length = ([{ emptyEvent with annot := "late" }] : List CuptiTracerEvent).length ∧
        ∀ i, i < stored.length →
          stored.getD i emptyEvent
            = { ([{ emptyEvent with annot := "late" }] : List CuptiTracerEvent).getD i emptyEvent with
                 annot := "", nvtx_range := "" }) := by
  constructor
  · exact ⟨by decide,
      (push_budget_degradation _ emptyCAE { emptyEvent with annot := "ctx" } []).1 (by decide)⟩
  · exact ⟨by decide,
      (push_budget_degradation _ { emptyCAE with annotations := ["ctx"] } emptyEvent
        [{ emptyEvent with annot := "late" }]).2 (by decide)⟩

/-- C10: the single-node-addition path of the dispatcher unconditionally reads
the first entry of the thread-local node-id map, so it implicitly requires the
map to be non-empty.  In this total embedding the function returns `Option`:
with an empty map the result is `none` (and the `none` branch is reachable
from the full callback path when no node-creation resource notification
preceded the exit); with a non-empty map the event is filled from the first
entry and the map is cleared. -/
theorem graph_node_event_requires_nonempty_map (e : CuptiTracerEvent)
    (device_id : Nat) (cbid : CallbackId) (cb : CallbackData)
    (tid start_tsc end_tsc : Nat) (g : GraphResourceCreationInfo)
    (env : ApiCallEnv) (itf : CuptiInterfaceModel) (t : CuptiTracer)
    (buf : CallbackAnnotationsAndEvents) :
    (g.node_id_map = [] →
       SetCudaGraphNodeEventUponApiExit e device_id cbid cb tid start_tsc end_tsc g
         = none) ∧
    (∀ p rest, g.node_id_map = p :: rest →
       ∃ e1 g1,
         SetCudaGraphNodeEventUponApiExit e device_id cbid cb tid start_tsc end_tsc g
           = some (e1, g1) ∧
         e1.graph_node_id = p.1 ∧ e1.cg_orig_graph_node_id = p.2 ∧
         g1.node_id_map = []) ∧
    (g.node_id_map = [] → t.TooManyCallbackEvents = false →
       AddDriverApiCallbackEvent env itf t g buf device_id start_tsc end_tsc
         CallbackId.cuGraphAddKernelNode cb = none) := by
  refine ⟨?_, ?_, ?_⟩
  · intro h
    simp [SetCudaGraphNodeEventUponApiExit, h]
  · intro p rest h
    simp only [SetCudaGraphNodeEventUponApiExit, h]
    exact ⟨_, _, rfl, rfl, rfl, rfl⟩
  · intro h hcap
    simp [AddDriverApiCallbackEvent, hcap, SetCallbackEventUponApiExit,
      SetCudaGraphNodeEventUponApiExit, h]

/-- Witness for C10: both the empty-map `none` branch (also through the full
callback path) and the non-empty-map branch at concrete inputs. -/
theorem graph_node_event_requires_nonempty_map_witness :
    (({ graph_id := 3, orig_graph_id := 0, node_id_map := [] } :
        GraphResourceCreationInfo).node_id_map = [] ∧
      SetCudaGraphNodeEventUponApiExit emptyEvent 0 CallbackId.cuGraphAddKernelNode
          ⟨some 1, 7, 42, "cuGraphAddKernelNode", none, CallbackSite.apiExit, 0⟩
          11 100 200 { graph_id := 3, orig_graph_id := 0, node_id_map := [] }
        = none) ∧
    ∃ e1 g1,
      SetCudaGraphNodeEventUponApiExit emptyEvent 0 CallbackId.cuGraphAddKernelNode
          ⟨some 1, 7, 42, "cuGraphAddKernelNode", none, CallbackSite.apiExit, 0⟩
          11 100 200 { graph_id := 3, orig_graph_id := 0, node_id_map := [(8, 9)] }
        = some (e1, g1) ∧
      e1.graph_node_id = ((8 : Nat), (9 : Nat)).1 ∧
      e1.cg_orig_graph_node_id = ((8 : Nat), (9 : Nat)).2 ∧
      g1.node_id_map = [] := by
  constructor
  · exact ⟨rfl,
      (graph_node_event_requires_nonempty_map emptyEvent 0 CallbackId.cuGraphAddKernelNode
        ⟨some 1, 7, 42, "cuGraphAddKernelNode", none, CallbackSite.apiExit, 0⟩
        11 100 200 { graph_id := 3, orig_graph_id := 0, node_id_map := [] }
        ⟨0, 11, "", []⟩
        ⟨fun _ => Except.ok 0, fun n => n, fun n => n, fun _ _ => 0, Except.ok 0, false⟩
        { num_gpus := 1, collector := some ⟨0, 0, 0⟩, option_ := none
          cupti_driver_api_hook := true, api_tracing_enabled := true
          activity_tracing_enabled := false, pm_sampling_enabled := false
          activity_buffers := none, num_callback_events := 0
          cupti_dropped_activity_event_count := 0
          num_activity_events_in_cached_buffer := 0
          num_activity_events_in_dropped_buffer := 0 } emptyCAE).1 rfl⟩
  · exact (graph_node_event_requires_nonempty_map emptyEvent 0 CallbackId.cuGraphAddKernelNode
      ⟨some 1, 7, 42, "cuGraphAddKernelNode", none, CallbackSite.apiExit, 0⟩
      11 100 200 { graph_id := 3, orig_graph_id := 0, node_id_map := [(8, 9)] }
      ⟨0, 11, "", []⟩
      ⟨fun _ => Except.ok 0, fun n => n, fun n => n, fun _ _ => 0, Except.ok 0, false⟩
      { num_gpus := 1, collector := some ⟨0, 0, 0⟩, option_ := none
        cupti_driver_api_hook := true, api_tracing_enabled := true
        activity_tracing_enabled := false, pm_sampling_enabled := false
        activity_buffers := none, num_callback_events := 0
        cupti_dropped_activity_event_count := 0
        num_activity_events_in_cached_buffer := 0
        num_activity_events_in_dropped_buffer := 0 } emptyCAE).2.1 (8, 9) [] rfl

/-- C6: for a driver-API callback outside the tracer's own bookkeeping, a
missing GPU context or a resolved device id at or beyond the known GPU count
makes the handler return a recoverable internal error, leaving the tracer
state, graph info and the thread's event buffer untouched — the single event
is dropped, no event is created and tracing continues. -/
theorem driver_callback_invalid_state (env : ApiCallEnv) (itf : CuptiInterfaceModel)
    (t : CuptiTracer) (g : GraphResourceCreationInfo)
    (buf : CallbackAnnotationsAndEvents) (cbid : CallbackId) (cb : CallbackData)
    (start_tsc end_tsc : Nat) (hint : env.internalCuCall = 0) :
    (cb.context = none →
       HandleDriverApiCallback env itf t g buf cbid cb start_tsc end_tsc
         = some (AbslStatus.internalError "cutpi callback without context", t, g, buf)) ∧
    (∀ ctx d, cb.context = some ctx → itf.getDeviceId ctx = Except.ok d →
       t.num_gpus ≤ d →
       HandleDriverApiCallback env itf t g buf cbid cb start_tsc end_tsc
         = some (AbslStatus.internalError ("Invalid device id:" ++ toString d), t, g, buf)) := by
  constructor
  · intro h
    simp [HandleDriverApiCallback, hint, h]
  · intro ctx d hctx hdev hge
    simp [HandleDriverApiCallback, hint, hctx, hdev, hge]

/-- Witness for C6: a callback with no context and one whose context resolves
to device id 5 with only one known GPU. -/
theorem driver_callback_invalid_state_witness :
    (HandleDriverApiCallback ⟨0, 11, "", []⟩
        ⟨fun _ => Except.ok 5, fun n => n, fun n => n, fun _ _ => 0, Except.ok 0, false⟩
        { num_gpus := 1, collector := some ⟨0, 0, 0⟩, option_ := none
          cupti_driver_api_hook := true, api_tracing_enabled := true
          activity_tracing_enabled := false, pm_sampling_enabled := false
          activity_buffers := none, num_callback_events := 0
          cupti_dropped_activity_event_count := 0
          num_activity_events_in_cached_buffer := 0
          num_activity_events_in_dropped_buffer := 0 }
        { graph_id := 0, orig_graph_id := 0, node_id_map := [] } emptyCAE
        (CallbackId.other 77) ⟨none, 7, 42, "cuCtxSetCurrent", none, CallbackSite.apiExit, 0⟩
        100 200
      = some (AbslStatus.internalError "cutpi callback without context",
          { num_gpus := 1, collector := some ⟨0, 0, 0⟩, option_ := none
            cupti_driver_api_hook := true, api_tracing_enabled := true
            activity_tracing_enabled := false, pm_sampling_enabled := false
            activity_buffers := none, num_callback_events := 0
            cupti_dropped_activity_event_count := 0
            num_activity_events_in_cached_buffer := 0
            num_activity_events_in_dropped_buffer := 0 },
          { graph_id := 0, orig_graph_id := 0, node_id_map := [] }, emptyCAE)) ∧
    (HandleDriverApiCallback ⟨0, 11, "", []⟩
        ⟨fun _ => Except.ok 5, fun n => n, fun n => n, fun _ _ => 0, Except.ok 0, false⟩
        { num_gpus := 1, collector := some ⟨0, 0, 0⟩, option_ := none
          cupti_driver_api_hook := true, api_tracing_enabled := true
          activity_tracing_enabled := false, pm_sampling_enabled := false
          activity_buffers := none, num_callback_events := 0
          cupti_dropped_activity_event_count := 0
          num_activity_events_in_cached_buffer := 0
          num_activity_events_in_dropped_buffer := 0 }
        { graph_id := 0, orig_graph_id := 0, node_id_map := [] } emptyCAE
        (CallbackId.other 77) ⟨some 3, 7, 42, "cuMemAlloc", none, CallbackSite.apiExit, 0⟩
        100 200
      = some (AbslStatus.internalError ("Invalid device id:" ++ toString (5 : Nat)),
          { num_gpus := 1, collector := some ⟨0, 0, 0⟩, option_ := none
            cupti_driver_api_hook := true, api_tracing_enabled := true
            activity_tracing_enabled := false, pm_sampling_enabled := false
            activity_buffers := none, num_callback_events := 0
            cupti_dropped_activity_event_count := 0
            num_activity_events_in_cached_buffer := 0
            num_activity_events_in_dropped_buffer := 0 },
          { graph_id := 0, orig_graph_id := 0, node_id_map := [] }, emptyCAE)) := by
  constructor
  · exact (driver_callback_invalid_state ⟨0, 11, "", []⟩
      ⟨fun _ => Except.ok 5, fun n => n, fun n => n, fun _ _ => 0, Except.ok 0, false⟩
      _ _ emptyCAE (CallbackId.other 77)
      ⟨none, 7, 42, "cuCtxSetCurrent", none, CallbackSite.apiExit, 0⟩ 100 200 rfl).1 rfl
  · exact (driver_callback_invalid_state ⟨0, 11, "", []⟩
      ⟨fun _ => Except.ok 5, fun n => n, fun n => n, fun _ _ => 0, Except.ok 0, false⟩
      _ _ emptyCAE (CallbackId.other 77)
      ⟨some 3, 7, 42, "cuMemAlloc", none, CallbackSite.apiExit, 0⟩ 100 200 rfl).2
      3 5 rfl rfl (by decide)

/-- C5: backpressure on the activity path.  With a positive cached-event cap,
when the number of already-cached-but-undelivered activity events exceeds the
cap, a newly filled activity buffer is not cached: its event count is added to
the dropped-in-dropped-buffer counter and the buffer is reclaimed into the
pool.  Below the cap the buffer is cached (with its valid size) and the
cached-event count grows by the buffer's event count. -/
theorem activity_buffer_backpressure (itf : CuptiInterfaceModel) (s : CuptiTracer)
    (mgr : CuptiActivityBufferManager) (copts : CollectorOptions) (b size : Nat)
    (hmgr : s.activity_buffers = some mgr) (hcol : s.collector = some copts)
    (hact : s.activity_tracing_enabled = true) (hdis : itf.disabled = false)
    (hsz : size ≠ 0) (hmax : 0 < copts.max_activity_api_events) :
    (copts.max_activity_api_events < s.num_activity_events_in_cached_buffer →
       ∃ s1, ProcessActivityBuffer itf s b size = some (AbslStatus.ok, s1) ∧
         s1.num_activity_events_in_dropped_buffer
           = s.num_activity_events_in_dropped_buffer + itf.countActivityEvents b size ∧
         s1.num_activity_events_in_cached_buffer
           = s.num_activity_events_in_cached_buffer ∧
         s1.activity_buffers = some (ReclaimBuffer mgr b)) ∧
    (s.num_activity_events_in_cached_buffer < copts.max_activity_api_events →
       ∃ s1, ProcessActivityBuffer itf s b size = some (AbslStatus.ok, s1) ∧
         s1.num_activity_events_in_cached_buffer
           = s.num_activity_events_in_cached_buffer + itf.countActivityEvents b size ∧
         s1.num_activity_events_in_dropped_buffer
           = s.num_activity_events_in_dropped_buffer ∧
         s1.activity_buffers = some (CacheCuptiFilledActivityBuffer mgr b size)) := by
  constructor
  · intro hover
    cases hrec : itf.activityDroppedRecords with
    | ok n =>
        refine ⟨{ s with
            cupti_dropped_activity_event_count :=
              s.cupti_dropped_activity_event_count + n
            num_activity_events_in_dropped_buffer :=
              s.num_activity_events_in_dropped_buffer + itf.countActivityEvents b size
            activity_buffers := some (ReclaimBuffer mgr b) }, ?_, rfl, rfl, rfl⟩
        unfold ProcessActivityBuffer
        rw [hmgr]
        dsimp only
        rw [if_neg hsz, if_neg (by simp [hact]), if_neg (by simp [hdis]), hrec]
        dsimp only
        rw [hcol]
        dsimp only
        rw [if_pos ⟨hmax, Nat.le_of_lt hover⟩]
    | error u =>
        refine ⟨{ s with
            num_activity_events_in_dropped_buffer :=
              s.num_activity_events_in_dropped_buffer + itf.countActivityEvents b size
            activity_buffers := some (ReclaimBuffer mgr b) }, ?_, rfl, rfl, rfl⟩
        unfold ProcessActivityBuffer
        rw [hmgr]
        dsimp only
        rw [if_neg hsz, if_neg (by simp [hact]), if_neg (by simp [hdis]), hrec]
        dsimp only
        rw [hcol]
        dsimp only
        rw [if_pos ⟨hmax, Nat.le_of_lt hover⟩]
  · intro hunder
    cases hrec : itf.activityDroppedRecords with
    | ok n =>
        refine ⟨{ s with
            cupti_dropped_activity_event_count :=
              s.cupti_dropped_activity_event_count + n
            num_activity_events_in_cached_buffer :=
              s.num_activity_events_in_cached_buffer + itf.countActivityEvents b size
            activity_buffers := some (CacheCuptiFilledActivityBuffer mgr b size) },
          ?_, rfl, rfl, rfl⟩
        unfold ProcessActivityBuffer
        rw [hmgr]
        dsimp only
        rw [if_neg hsz, if_neg (by simp [hact]), if_neg (by simp [hdis]), hrec]
        dsimp only
        rw [hcol]
        dsimp only
        rw [if_neg (fun hcc => absurd hcc.2 (by omega))]
    | error u =>
        refine ⟨{ s with
            num_activity_events_in_cached_buffer :=
              s.num_activity_events_in_cached_buffer + itf.countActivityEvents b size
            activity_buffers := some (CacheCuptiFilledActivityBuffer mgr b size) },
          ?_, rfl, rfl, rfl⟩
        unfold ProcessActivityBuffer
        rw [hmgr]
        dsimp only
        rw [if_neg hsz, if_neg (by simp [hact]), if_neg (by simp [hdis]), hrec]
        dsimp only
        rw [hcol]
        dsimp only
        rw [if_neg (fun hcc => absurd hcc.2 (by omega))]

/-- Witness for C5: one buffer arriving over the cap (dropped and reclaimed)
and one under the cap (cached). -/
theorem activity_buffer_backpressure_witness :
    (∃ s1, ProcessActivityBuffer witnessItf witnessTracerOverCap 10 64
          = some (AbslStatus.ok, s1) ∧
       s1.num_activity_events_in_dropped_buffer
         = witnessTracerOverCap.num_activity_events_in_dropped_buffer +
             witnessItf.countActivityEvents 10 64 ∧
       s1.num_activity_events_in_cached_buffer
         = witnessTracerOverCap.num_activity_events_in_cached_buffer ∧
       s1.activity_buffers = some (ReclaimBuffer ⟨[], []⟩ 10)) ∧
    (∃ s1, ProcessActivityBuffer witnessItf witnessTracerUnderCap 10 64
          = some (AbslStatus.ok, s1) ∧
       s1.num_activity_events_in_cached_buffer
         = witnessTracerUnderCap.num_activity_events_in_cached_buffer +
             witnessItf.countActivityEvents 10 64 ∧
       s1.num_activity_events_in_dropped_buffer
         = witnessTracerUnderCap.num_activity_events_in_dropped_buffer ∧
       s1.activity_buffers = some (CacheCuptiFilledActivityBuffer ⟨[], []⟩ 10 64)) := by
  constructor
  · exact (activity_buffer_backpressure witnessItf witnessTracerOverCap ⟨[], []⟩
      ⟨0, 0, 2⟩ 10 64 rfl rfl rfl rfl (by decide) (by decide)).1 (by decide)
  · exact (activity_buffer_backpressure witnessItf witnessTracerUnderCap ⟨[], []⟩
      ⟨0, 0, 2⟩ 10 64 rfl rfl rfl rfl (by decide) (by decide)).2 (by decide)

/-- Record-update eta: clearing an already-false activity flag is the
identity. -/
theorem update_act_false_eq_self (s : CuptiTracer)
    (h : s.activity_tracing_enabled = false) :
    ({ s with activity_tracing_enabled := false } : CuptiTracer) = s := by
  cases s
  simp_all

/-- C7: in both `Disable()` and `FlushEventsToCollector()` the gathered
per-thread callback data is delivered to the collector strictly before the
cached activity buffers — in the effect log, `onCollectedCallbackData`
immediately precedes `onCachedActivityBuffers`. -/
theorem collector_delivery_order (s : CuptiTracer) (opt : CuptiTracerOptions)
    (copts : CollectorOptions) (mgr : CuptiActivityBufferManager)
    (hopt : s.option_ = some opt) (hhook : s.cupti_driver_api_hook = true)
    (hcol : s.collector = some copts) (hmgr : s.activity_buffers = some mgr)
    (hapi : s.api_tracing_enabled = true) :
    (∃ s1 pre post, CuptiTracer.Disable s
        = some (s1, pre ++ [TracerEffect.onCollectedCallbackData,
            TracerEffect.onCachedActivityBuffers] ++ post)) ∧
    (∃ s2 pre2 post2, CuptiTracer.FlushEventsToCollector s
        = some (s2, pre2 ++ [TracerEffect.onCollectedCallbackData,
            TracerEffect.onCachedActivityBuffers] ++ post2)) := by
  constructor
  · cases hact2 : s.activity_tracing_enabled with
    | true =>
        refine ⟨{ s with
            pm_sampling_enabled := false
            api_tracing_enabled := false
            activity_tracing_enabled := false
            activity_buffers := none
            collector := none
            option_ := none
            cupti_driver_api_hook := false },
          (if s.pm_sampling_enabled then [TracerEffect.pmStopSampler] else []) ++
            [TracerEffect.apiVendorDisable, TracerEffect.unsubscribeVendor,
             TracerEffect.activityVendorDisable, TracerEffect.activityFlushAll,
             TracerEffect.cleanUp] ++
            (if opt.cupti_finalize then [TracerEffect.finalizeVendor] else []) ++
            [TracerEffect.syncAndFlush, TracerEffect.setTracingEndTime],
          (if 0 < s.cupti_dropped_activity_event_count then
              [TracerEffect.onEventsDropped DropReason.cuptiLib
                s.cupti_dropped_activity_event_count]
            else []) ++
            (if 0 < s.num_activity_events_in_dropped_buffer then
              [TracerEffect.onEventsDropped DropReason.droppedBuffer
                s.num_activity_events_in_dropped_buffer]
            else []) ++
            [TracerEffect.collectorFlush, TracerEffect.annotStackOff], ?_⟩
        simp [CuptiTracer.Disable, DisableApiTracing, DisableActivityTracing,
          hopt, hhook, hcol, hmgr, hapi, hact2]
    | false =>
        refine ⟨{ s with
            pm_sampling_enabled := false
            api_tracing_enabled := false
            activity_tracing_enabled := false
            activity_buffers := none
            collector := none
            option_ := none
            cupti_driver_api_hook := false },
          (if s.pm_sampling_enabled then [TracerEffect.pmStopSampler] else []) ++
            [TracerEffect.apiVendorDisable, TracerEffect.unsubscribeVendor,
             TracerEffect.cleanUp] ++
            (if opt.cupti_finalize then [TracerEffect.finalizeVendor] else []) ++
            [TracerEffect.syncAndFlush, TracerEffect.setTracingEndTime],
          (if 0 < s.cupti_dropped_activity_event_count then
              [TracerEffect.onEventsDropped DropReason.cuptiLib
                s.cupti_dropped_activity_event_count]
            else []) ++
            (if 0 < s.num_activity_events_in_dropped_buffer then
              [TracerEffect.onEventsDropped DropReason.droppedBuffer
                s.num_activity_events_in_dropped_buffer]
            else []) ++
            [TracerEffect.collectorFlush, TracerEffect.annotStackOff], ?_⟩
        simp [CuptiTracer.Disable, DisableApiTracing, DisableActivityTracing,
          hopt, hhook, hcol, hmgr, hapi, hact2]
  · cases hact2 : s.activity_tracing_enabled with
    | true =>
        refine ⟨{ s with activity_buffers := some { mgr with cached := [] } },
          [TracerEffect.popCachedBuffers], [], ?_⟩
        simp [CuptiTracer.FlushEventsToCollector, PopCachedBuffers,
          hopt, hhook, hcol, hmgr, hapi, hact2]
    | false =>
        refine ⟨s, [], [], ?_⟩
        simp [CuptiTracer.FlushEventsToCollector, hopt, hhook, hcol, hmgr,
          hapi, hact2]

/-- Witness for C7 at the concrete fully-enabled tracer. -/
theorem collector_delivery_order_witness :
    (∃ s1 pre post, CuptiTracer.Disable witnessEnabledTracer
        = some (s1, pre ++ [TracerEffect.onCollectedCallbackData,
            TracerEffect.onCachedActivityBuffers] ++ post)) ∧
    (∃ s2 pre2 post2, CuptiTracer.FlushEventsToCollector witnessEnabledTracer
        = some (s2, pre2 ++ [TracerEffect.onCollectedCallbackData,
            TracerEffect.onCachedActivityBuffers] ++ post2)) :=
  collector_delivery_order witnessEnabledTracer ⟨false, false⟩ ⟨0, 0, 0⟩ ⟨[], []⟩
    rfl rfl rfl rfl rfl

/-- Counterexample for C2: after one completed `Disable()` the collector,
options and driver-api hook are released, so the second `Disable()` in a row
is not a no-op — it dereferences the released members (modelled as `none`)
instead of producing no collector notifications. -/
theorem disable_twice_dereferences_null :
    CuptiTracer.Disable witnessEnabledTracer
      = some (witnessDisabledTracer,
          [TracerEffect.apiVendorDisable, TracerEffect.unsubscribeVendor,
           TracerEffect.activityVendorDisable, TracerEffect.activityFlushAll,
           TracerEffect.cleanUp, TracerEffect.syncAndFlush,
           TracerEffect.setTracingEndTime, TracerEffect.onCollectedCallbackData,
           TracerEffect.onCachedActivityBuffers, TracerEffect.collectorFlush,
           TracerEffect.annotStackOff]) ∧
    CuptiTracer.Disable witnessDisabledTracer = none := by
  constructor
  · rfl
  · rfl

/-- C2 (amended): idempotence holds per sub-state — `DisableApiTracing` and
`DisableActivityTracing` are no-ops (no vendor calls, no notifications) when
their sub-state is already off, and a `Disable()` run on a tracer whose
sub-states are all off performs none of the pm/api/activity teardown calls, so
partial enables are torn down correctly; but a full second `Disable()` after a
completed one dereferences the released members (see the counterexample)
rather than being a no-op. -/
theorem disable_substates_idempotent (s : CuptiTracer) (opt : CuptiTracerOptions)
    (copts : CollectorOptions)
    (hapi : s.api_tracing_enabled = false) (hact : s.activity_tracing_enabled = false)
    (hpm : s.pm_sampling_enabled = false)
    (hopt : s.option_ = some opt) (hcol : s.collector = some copts)
    (hhook : s.cupti_driver_api_hook = true) :
    DisableApiTracing s = some (s, []) ∧
    DisableActivityTracing s = some (s, []) ∧
    ∃ s1 log, CuptiTracer.Disable s = some (s1, log) ∧
      TracerEffect.pmStopSampler ∉ log ∧
      TracerEffect.apiVendorDisable ∉ log ∧
      TracerEffect.unsubscribeVendor ∉ log ∧
      TracerEffect.activityVendorDisable ∉ log ∧
      TracerEffect.activityFlushAll ∉ log := by
  refine ⟨by simp [DisableApiTracing, hapi], ?_, ?_⟩
  · have h2 := update_act_false_eq_self s hact
    simp [DisableActivityTracing, hact, h2]
  · have hdis : CuptiTracer.Disable s
        = some ({ s with
            pm_sampling_enabled := false
            activity_tracing_enabled := false
            activity_buffers := none
            collector := none
            option_ := none
            cupti_driver_api_hook := false },
          [TracerEffect.cleanUp] ++
            (if opt.cupti_finalize then [TracerEffect.finalizeVendor] else []) ++
            [TracerEffect.syncAndFlush, TracerEffect.setTracingEndTime,
             TracerEffect.onCollectedCallbackData] ++
            (match s.activity_buffers with
              | some _ => [TracerEffect.onCachedActivityBuffers]
              | none => []) ++
            (if 0 < s.cupti_dropped_activity_event_count then
              [TracerEffect.onEventsDropped DropReason.cuptiLib
                s.cupti_dropped_activity_event_count]
            else []) ++
            (if 0 < s.num_activity_events_in_dropped_buffer then
              [TracerEffect.onEventsDropped DropReason.droppedBuffer
                s.num_activity_events_in_dropped_buffer]
            else []) ++
            [TracerEffect.collectorFlush, TracerEffect.annotStackOff]) := by
      cases hbuf : s.activity_buffers <;>
        simp [CuptiTracer.Disable, DisableApiTracing, DisableActivityTracing,
          hapi, hact, hpm, hopt, hcol, hhook, hbuf]
    refine ⟨_, _, hdis, ?_, ?_, ?_, ?_, ?_⟩ <;>
      · cases hbuf : s.activity_buffers <;>
        cases hfin : opt.cupti_finalize <;>
        by_cases h1 : 0 < s.cupti_dropped_activity_event_count <;>
        by_cases h2 : 0 < s.num_activity_events_in_dropped_buffer <;>
        simp [hbuf, hfin, h1, h2]

/-- Witness for the amended C2 at a populated tracer with all sub-states off. -/
theorem disable_substates_idempotent_witness :
    DisableApiTracing witnessIdleTracer = some (witnessIdleTracer, []) ∧
    DisableActivityTracing witnessIdleTracer = some (witnessIdleTracer, []) ∧
    ∃ s1 log, CuptiTracer.Disable witnessIdleTracer = some (s1, log) ∧
      TracerEffect.pmStopSampler ∉ log ∧
      TracerEffect.apiVendorDisable ∉ log ∧
      TracerEffect.unsubscribeVendor ∉ log ∧
      TracerEffect.activityVendorDisable ∉ log ∧
      TracerEffect.activityFlushAll ∉ log :=
  disable_substates_idempotent witnessIdleTracer ⟨false, false⟩ ⟨0, 0, 0⟩
    rfl rfl rfl rfl rfl rfl

/-- One generic-callback step of `AddDriverApiCallbackEvent` below the event
cap: the event is counted, the scope sequence recorded and the generic event
pushed. -/
theorem addDriverApiCallbackEvent_generic_step (env : ApiCallEnv)
    (itf : CuptiInterfaceModel) (t : CuptiTracer) (g : GraphResourceCreationInfo)
    (buf : CallbackAnnotationsAndEvents) (device_id start_tsc end_tsc kId : Nat)
    (cb : CallbackData) (hcap : t.TooManyCallbackEvents = false) :
    AddDriverApiCallbackEvent env itf t g buf device_id start_tsc end_tsc
        (CallbackId.other kId) cb
      = some (AbslStatus.ok, t.IncCallbackEventCount, g,
          GuardedPush t.IncCallbackEventCount
            (GuardedAddScopeRangeIdSequence buf env.scopeRangeIds)
            (SetGenericEventUponApiExit (initCallbackEvent env cb) device_id
              (CallbackId.other kId) cb env.threadId start_tsc end_tsc)) := by
  simp [AddDriverApiCallbackEvent, hcap, SetCallbackEventUponApiExit]

/-- Running `k` identical generic callbacks while staying at or below the cap
appends exactly `k` events, counts exactly `k` callback events and drops
nothing. -/
theorem runGeneric_below_cap (env : ApiCallEnv) (itf : CuptiInterfaceModel)
    (device_id start_tsc end_tsc kId : Nat) (cb : CallbackData)
    (copts : CollectorOptions) :
    ∀ (k : Nat) (t : CuptiTracer) (g : GraphResourceCreationInfo)
      (buf : CallbackAnnotationsAndEvents),
      t.collector = some copts →
      t.num_callback_events + k ≤ copts.max_callback_api_events →
      ∃ t1 g1 buf1,
        runDriverApiCallbackEvents env itf device_id start_tsc end_tsc
            (CallbackId.other kId) cb k (t, g, buf) = some (t1, g1, buf1) ∧
        t1.collector = t.collector ∧
        t1.num_callback_events = t.num_callback_events + k ∧
        buf1.events.length = buf.events.length + k ∧
        buf1.num_dropped_events = buf.num_dropped_events := by
  intro k
  induction k with
  | zero => intro t g buf hcol hle; exact ⟨t, g, buf, rfl, rfl, rfl, rfl, rfl⟩
  | succ n ih =>
      intro t g buf hcol hle
      have hcap : t.TooManyCallbackEvents = false := by
        simp only [CuptiTracer.TooManyCallbackEvents, hcol,
          Bool.and_eq_false_iff, decide_eq_false_iff_not]
        omega
      obtain ⟨t1, g1, buf1, hrun, hc, hn, hev, hd⟩ :=
        ih t.IncCallbackEventCount g
          (GuardedPush t.IncCallbackEventCount
            (GuardedAddScopeRangeIdSequence buf env.scopeRangeIds)
            (SetGenericEventUponApiExit (initCallbackEvent env cb) device_id
              (CallbackId.other kId) cb env.threadId start_tsc end_tsc))
          hcol
          (by simp only [CuptiTracer.IncCallbackEventCount]; omega)
      refine ⟨t1, g1, buf1, ?_, hc, ?_, ?_, ?_⟩
      · rw [runDriverApiCallbackEvents,
          addDriverApiCallbackEvent_generic_step env itf t g buf device_id
            start_tsc end_tsc kId cb hcap]
        exact hrun
      · simp only [CuptiTracer.IncCallbackEventCount] at hn
        omega
      · have hplen : (GuardedPush t.IncCallbackEventCount
            (GuardedAddScopeRangeIdSequence buf env.scopeRangeIds)
            (SetGenericEventUponApiExit (initCallbackEvent env cb) device_id
              (CallbackId.other kId) cb env.threadId start_tsc end_tsc)).events.length
            = buf.events.length + 1 := by
          simp [GuardedPush, GuardedAddScopeRangeIdSequence]
        omega
      · exact hd

/-- Splitting a run of `a + b` identical callbacks into a run of `a` followed
by a run of `b`. -/
theorem runDriverApiCallbackEvents_add (env : ApiCallEnv) (itf : CuptiInterfaceModel)
    (device_id start_tsc end_tsc : Nat) (cbid : CallbackId) (cb : CallbackData)
    (a b : Nat) :
    ∀ st, runDriverApiCallbackEvents env itf device_id start_tsc end_tsc cbid cb
        (a + b) st
      = Option.bind
          (runDriverApiCallbackEvents env itf device_id start_tsc end_tsc cbid cb a st)
          (runDriverApiCallbackEvents env itf device_id start_tsc end_tsc cbid cb b) := by
  induction a with
  | zero =>
      intro st
      rw [Nat.zero_add]
      simp [runDriverApiCallbackEvents]
  | succ n ih =>
      intro st
      obtain ⟨t, g, buf⟩ := st
      have hadd : n + 1 + b = (n + b) + 1 := by omega
      rw [hadd]
      simp only [runDriverApiCallbackEvents]
      cases AddDriverApiCallbackEvent env itf t g buf device_id start_tsc end_tsc cbid cb with
      | none => simp
      | some r =>
          obtain ⟨st0, t1, g1, buf1⟩ := r
          simpa using ih (t1, g1, buf1)

/-- C4: with a configured max-callback-events ceiling `N > 0` and a fresh event
counter, a burst of `N + 1` identical callback events appends exactly `N`
events to the thread's buffer, increments the dropped-event counter by exactly
1 on the `(N+1)`-th event, leaves the counter at `N`, keeps tracing running
(the run completes), and the batch Consume delivers holds exactly those `N`
events. -/
theorem callback_event_cap (env : ApiCallEnv) (itf : CuptiInterfaceModel)
    (device_id start_tsc end_tsc kId : Nat) (cb : CallbackData) (t : CuptiTracer)
    (g : GraphResourceCreationInfo) (buf : CallbackAnnotationsAndEvents)
    (copts : CollectorOptions) (N : Nat)
    (hcol : t.collector = some copts) (hmax : copts.max_callback_api_events = N)
    (hN : 0 < N) (hzero : t.num_callback_events = 0) :
    ∃ t1 g1 buf1,
      runDriverApiCallbackEvents env itf device_id start_tsc end_tsc
          (CallbackId.other kId) cb (N + 1) (t, g, buf) = some (t1, g1, buf1) ∧
      buf1.events.length = buf.events.length + N ∧
      buf1.num_dropped_events = buf.num_dropped_events + 1 ∧
      t1.num_callback_events = N ∧
      (GuardedConsume buf1).1.events.length = buf.events.length + N := by
  obtain ⟨t1, g1, buf1, hrun, hc, hn, hev, hd⟩ :=
    runGeneric_below_cap env itf device_id start_tsc end_tsc kId cb copts N t g buf
      hcol (by omega)
  have hcap1 : t1.TooManyCallbackEvents = true := by
    have hc1 : t1.collector = some copts := by rw [hc, hcol]
    simp only [CuptiTracer.TooManyCallbackEvents, hc1, Bool.and_eq_true,
      decide_eq_true_eq]
    omega
  have hstep : AddDriverApiCallbackEvent env itf t1 g1 buf1 device_id start_tsc
      end_tsc (CallbackId.other kId) cb
      = some (AbslStatus.ok, t1, g1, IncNumDroppedEvents buf1) := by
    simp [AddDriverApiCallbackEvent, hcap1]
  refine ⟨t1, g1, IncNumDroppedEvents buf1, ?_, ?_, ?_, ?_, ?_⟩
  · rw [runDriverApiCallbackEvents_add env itf device_id start_tsc end_tsc
      (CallbackId.other kId) cb N 1 (t, g, buf), hrun]
    simp [runDriverApiCallbackEvents, hstep]
  · simpa [IncNumDroppedEvents] using hev
  · simp [IncNumDroppedEvents, hd]
  · omega
  · simpa [GuardedConsume, IncNumDroppedEvents] using hev

/-- Witness for C4: cap 2, three callbacks — two events stored, one dropped. -/
theorem callback_event_cap_witness :
    ∃ t1 g1 buf1,
      runDriverApiCallbackEvents ⟨0, 11, "", []⟩ witnessItf 0 100 200
          (CallbackId.other 77) ⟨some 3, 7, 42, "cuStreamSynchronize", none,
            CallbackSite.apiExit, 0⟩ (2 + 1)
          ({ witnessIdleTracer with collector := some ⟨2, 0, 0⟩ },
            { graph_id := 0, orig_graph_id := 0, node_id_map := [] }, emptyCAE)
        = some (t1, g1, buf1) ∧
      buf1.events.length = emptyCAE.events.length + 2 ∧
      buf1.num_dropped_events = emptyCAE.num_dropped_events + 1 ∧
      t1.num_callback_events = 2 ∧
      (GuardedConsume buf1).1.events.length = emptyCAE.events.length + 2 :=
  callback_event_cap ⟨0, 11, "", []⟩ witnessItf 0 100 200 77
    ⟨some 3, 7, 42, "cuStreamSynchronize", none, CallbackSite.apiExit, 0⟩
    { witnessIdleTracer with collector := some ⟨2, 0, 0⟩ }
    { graph_id := 0, orig_graph_id := 0, node_id_map := [] } emptyCAE
    ⟨2, 0, 0⟩ 2 rfl rfl (by decide) rfl

/-- Structure of the events pushed by the clone/instantiate node-map loop:
exactly one event per map entry, appended in map order, each of type
`CudaGraphNodeMap`, every one carrying the identical 1-ns-wide window
`[ts, ts + 1)` (the loop never advances `current_start_time`), with the
entry's node id and origin node id. -/
theorem pushNodeMapLoop_spec (t : CuptiTracer) (env : ApiCallEnv)
    (e : CuptiTracerEvent) (device_id : Nat) (cbid : CallbackId)
    (cb : CallbackData) (gid ogid : Nat) :
    ∀ (entries : List (Nat × Nat)) (ts : Nat) (buf : CallbackAnnotationsAndEvents),
      ∃ pushed : List CuptiTracerEvent,
        (pushNodeMapLoop t env e device_id cbid cb gid ogid ts entries buf).events
            = buf.events ++ pushed ∧
        pushed.length = entries.length ∧
        ∀ i, i < pushed.length →
          (pushed.getD i emptyEvent).type = CuptiTracerEventType.CudaGraphNodeMap ∧
          (pushed.getD i emptyEvent).start_time_ns = ts ∧
          (pushed.getD i emptyEvent).end_time_ns = ts + 1 ∧
          (pushed.getD i emptyEvent).graph_node_id = (entries.getD i (0, 0)).1 ∧
          (pushed.getD i emptyEvent).cg_orig_graph_node_id = (entries.getD i (0, 0)).2 := by
  intro entries
  induction entries with
  | nil =>
      intro ts buf
      refine ⟨[], by simp [pushNodeMapLoop], rfl, ?_⟩
      intro i hi
      simp at hi
  | cons p rest ih =>
      intro ts buf
      obtain ⟨ps, hev, hlen, hfacts⟩ :=
        ih ts (GuardedPush t buf (mkNodeMapEvent env e device_id cbid cb ts gid ogid p))
      refine ⟨pushedEventOf t buf (mkNodeMapEvent env e device_id cbid cb ts gid ogid p) :: ps,
        ?_, by simp [hlen], ?_⟩
      · calc (pushNodeMapLoop t env e device_id cbid cb gid ogid ts (p :: rest) buf).events
            = (pushNodeMapLoop t env e device_id cbid cb gid ogid ts rest
                (GuardedPush t buf (mkNodeMapEvent env e device_id cbid cb ts gid ogid p))).events := rfl
          _ = (GuardedPush t buf (mkNodeMapEvent env e device_id cbid cb ts gid ogid p)).events
                ++ ps := hev
          _ = (buf.events
                ++ [pushedEventOf t buf (mkNodeMapEvent env e device_id cbid cb ts gid ogid p)])
                ++ ps := rfl
          _ = buf.events
                ++ pushedEventOf t buf (mkNodeMapEvent env e device_id cbid cb ts gid ogid p)
                  :: ps := by simp
      · intro i hi
        cases i with
        | zero =>
            exact ⟨rfl, rfl, rfl, rfl, rfl⟩
        | succ j =>
            have hj : j < ps.length := by simpa using hi
            obtain ⟨h1, h2, h3, h4, h5⟩ := hfacts j hj
            exact ⟨by simpa using h1, by simpa using h2, by simpa using h3,
              by simpa using h4, by simpa using h5⟩

/-- C1 (corrected): a `cuGraphClone` or `cuGraphInstantiateWithFlags` callback
exit, on a thread whose node-id map holds `N` entries (and below the
callback-event cap), appends to the thread's buffer exactly `N`
`CudaGraphNodeMap` events — in map order, every one carrying the identical
1-ns-wide window `[start, start + 1)` at the enclosing call's start time,
since `current_start_time` is never advanced in the loop — followed by exactly
one graph-level `CudaGraph` event, and leaves the node-id map empty. -/
theorem cuGraph_clone_node_map_shared_window (env : ApiCallEnv)
    (itf : CuptiInterfaceModel) (t : CuptiTracer) (g : GraphResourceCreationInfo)
    (buf : CallbackAnnotationsAndEvents) (device_id start_tsc end_tsc : Nat)
    (cb : CallbackData) (cbid : CallbackId)
    (hcbid : cbid = CallbackId.cuGraphClone ∨
      cbid = CallbackId.cuGraphInstantiateWithFlags)
    (hcap : t.TooManyCallbackEvents = false) :
    ∃ t1 g1 buf1 pushed glStored,
      AddDriverApiCallbackEvent env itf t g buf device_id start_tsc end_tsc cbid cb
        = some (AbslStatus.ok, t1, g1, buf1) ∧
      buf1.events = buf.events ++ pushed ++ [glStored] ∧
      pushed.length = g.node_id_map.length ∧
      (∀ i, i < pushed.length →
        (pushed.getD i emptyEvent).type = CuptiTracerEventType.CudaGraphNodeMap ∧
        (pushed.getD i emptyEvent).start_time_ns = start_tsc ∧
        (pushed.getD i emptyEvent).end_time_ns = start_tsc + 1 ∧
        (pushed.getD i emptyEvent).graph_node_id = (g.node_id_map.getD i (0, 0)).1) ∧
      glStored.type = CuptiTracerEventType.CudaGraph ∧
      g1.node_id_map = [] := by
  have hnl : ¬(cbid = CallbackId.cuGraphLaunch ∨ cbid = CallbackId.cuGraphLaunch_ptsz) := by
    rcases hcbid with rfl | rfl <;> simp
  have hset : SetCudaGraphEventUponApiExit env itf t.IncCallbackEventCount
      (initCallbackEvent env cb) device_id cbid cb start_tsc end_tsc g
      (GuardedAddScopeRangeIdSequence buf env.scopeRangeIds)
      = (mkGraphEvent env (initCallbackEvent env cb) device_id cbid cb start_tsc
          end_tsc { g with node_id_map := [] },
         { g with node_id_map := [] },
         pushNodeMapLoop t.IncCallbackEventCount env (initCallbackEvent env cb)
           device_id cbid cb g.graph_id g.orig_graph_id start_tsc g.node_id_map
           (GuardedAddScopeRangeIdSequence buf env.scopeRangeIds)) := by
    simp only [SetCudaGraphEventUponApiExit]
    rw [if_neg hnl, if_pos hcbid, if_pos hcbid]
  have hdisp : SetCallbackEventUponApiExit env itf t.IncCallbackEventCount
      (initCallbackEvent env cb) device_id cbid cb start_tsc end_tsc g
      (GuardedAddScopeRangeIdSequence buf env.scopeRangeIds)
      = some (SetCudaGraphEventUponApiExit env itf t.IncCallbackEventCount
          (initCallbackEvent env cb) device_id cbid cb start_tsc end_tsc g
          (GuardedAddScopeRangeIdSequence buf env.scopeRangeIds)) := by
    rcases hcbid with rfl | rfl <;> rfl
  have key : AddDriverApiCallbackEvent env itf t g buf device_id start_tsc end_tsc cbid cb
      = some (AbslStatus.ok, t.IncCallbackEventCount, { g with node_id_map := [] },
          GuardedPush t.IncCallbackEventCount
            (pushNodeMapLoop t.IncCallbackEventCount env (initCallbackEvent env cb)
              device_id cbid cb g.graph_id g.orig_graph_id start_tsc g.node_id_map
              (GuardedAddScopeRangeIdSequence buf env.scopeRangeIds))
            (mkGraphEvent env (initCallbackEvent env cb) device_id cbid cb
              start_tsc end_tsc { g with node_id_map := [] })) := by
    unfold AddDriverApiCallbackEvent
    rw [if_neg (by simp [hcap])]
    dsimp only
    rw [hdisp, hset]
  obtain ⟨pushed, hev, hlen, hfacts⟩ :=
    pushNodeMapLoop_spec t.IncCallbackEventCount env (initCallbackEvent env cb)
      device_id cbid cb g.graph_id g.orig_graph_id g.node_id_map start_tsc
      (GuardedAddScopeRangeIdSequence buf env.scopeRangeIds)
  refine ⟨t.IncCallbackEventCount, { g with node_id_map := [] },
    GuardedPush t.IncCallbackEventCount
      (pushNodeMapLoop t.IncCallbackEventCount env (initCallbackEvent env cb)
        device_id cbid cb g.graph_id g.orig_graph_id start_tsc g.node_id_map
        (GuardedAddScopeRangeIdSequence buf env.scopeRangeIds))
      (mkGraphEvent env (initCallbackEvent env cb) device_id cbid cb
        start_tsc end_tsc { g with node_id_map := [] }),
    pushed,
    pushedEventOf t.IncCallbackEventCount
      (pushNodeMapLoop t.IncCallbackEventCount env (initCallbackEvent env cb)
        device_id cbid cb g.graph_id g.orig_graph_id start_tsc g.node_id_map
        (GuardedAddScopeRangeIdSequence buf env.scopeRangeIds))
      (mkGraphEvent env (initCallbackEvent env cb) device_id cbid cb
        start_tsc end_tsc { g with node_id_map := [] }),
    key, ?_, hlen, ?_, rfl, rfl⟩
  · calc (GuardedPush t.IncCallbackEventCount
        (pushNodeMapLoop t.IncCallbackEventCount env (initCallbackEvent env cb)
          device_id cbid cb g.graph_id g.orig_graph_id start_tsc g.node_id_map
          (GuardedAddScopeRangeIdSequence buf env.scopeRangeIds))
        (mkGraphEvent env (initCallbackEvent env cb) device_id cbid cb
          start_tsc end_tsc { g with node_id_map := [] })).events
        = (pushNodeMapLoop t.IncCallbackEventCount env (initCallbackEvent env cb)
            device_id cbid cb g.graph_id g.orig_graph_id start_tsc g.node_id_map
            (GuardedAddScopeRangeIdSequence buf env.scopeRangeIds)).events ++ [_] := rfl
      _ = ((GuardedAddScopeRangeIdSequence buf env.scopeRangeIds).events ++ pushed)
            ++ [_] := by rw [hev]
      _ = buf.events ++ pushed ++ [_] := rfl
  · intro i hi
    obtain ⟨h1, h2, h3, h4, _⟩ := hfacts i hi
    exact ⟨h1, h2, h3, h4⟩

/-- Witness for the corrected C1: a clone exit with two recorded node mappings
synthesizes two node-map events (both with the window `[1000, 1001)`) and one
graph event. -/
theorem cuGraph_clone_node_map_shared_window_witness :
    (CallbackId.cuGraphClone = CallbackId.cuGraphClone ∨
      CallbackId.cuGraphClone = CallbackId.cuGraphInstantiateWithFlags) ∧
    ∃ t1 g1 buf1 pushed glStored,
      AddDriverApiCallbackEvent ⟨0, 11, "anno", [4, 6]⟩ witnessItf
          { witnessIdleTracer with api_tracing_enabled := true }
          { graph_id := 21, orig_graph_id := 20, node_id_map := [(8, 9), (12, 13)] }
          emptyCAE 0 1000 1004 CallbackId.cuGraphClone
          ⟨some 3, 7, 42, "cuGraphClone", none, CallbackSite.apiExit, 0⟩
        = some (AbslStatus.ok, t1, g1, buf1) ∧
      buf1.events = emptyCAE.events ++ pushed ++ [glStored] ∧
      pushed.length
        = ({ graph_id := 21, orig_graph_id := 20, node_id_map := [(8, 9), (12, 13)] } :
            GraphResourceCreationInfo).node_id_map.length ∧
      (∀ i, i < pushed.length →
        (pushed.getD i emptyEvent).type = CuptiTracerEventType.CudaGraphNodeMap ∧
        (pushed.getD i emptyEvent).start_time_ns = 1000 ∧
        (pushed.getD i emptyEvent).end_time_ns = 1000 + 1 ∧
        (pushed.getD i emptyEvent).graph_node_id
          = (({ graph_id := 21, orig_graph_id := 20, node_id_map := [(8, 9), (12, 13)] } :
              GraphResourceCreationInfo).node_id_map.getD i (0, 0)).1) ∧
      glStored.type = CuptiTracerEventType.CudaGraph ∧
      g1.node_id_map = [] := by
  constructor
  · exact Or.inl rfl
  · exact cuGraph_clone_node_map_shared_window ⟨0, 11, "anno", [4, 6]⟩ witnessItf
      { witnessIdleTracer with api_tracing_enabled := true }
      { graph_id := 21, orig_graph_id := 20, node_id_map := [(8, 9), (12, 13)] }
      emptyCAE 0 1000 1004
      ⟨some 3, 7, 42, "cuGraphClone", none, CallbackSite.apiExit, 0⟩
      CallbackId.cuGraphClone (Or.inl rfl) (by decide)

/-- Counterexample for C1 as stated: at a clone exit with two recorded node
mappings and start time 1000, both synthesized node-map events start at 1000 —
the second does not start at 1001, so the timestamps are not strictly
increasing 1 ns apart. -/
theorem cuGraph_clone_timestamps_not_increasing :
    ((AddDriverApiCallbackEvent ⟨0, 11, "anno", [4, 6]⟩ witnessItf
        { witnessIdleTracer with api_tracing_enabled := true }
        { graph_id := 21, orig_graph_id := 20, node_id_map := [(8, 9), (12, 13)] }
        emptyCAE 0 1000 1004 CallbackId.cuGraphClone
        ⟨some 3, 7, 42, "cuGraphClone", none, CallbackSite.apiExit, 0⟩).map
      (fun r =>
        ((r.2.2.2.events.getD 0 emptyEvent).type,
         (r.2.2.2.events.getD 0 emptyEvent).start_time_ns,
         (r.2.2.2.events.getD 1 emptyEvent).type,
         (r.2.2.2.events.getD 1 emptyEvent).start_time_ns)))
      = some (CuptiTracerEventType.CudaGraphNodeMap, 1000,
          CuptiTracerEventType.CudaGraphNodeMap, 1000) ∧
    (1000 : Nat) ≠ 1000 + 1 := by
  constructor
  · rfl
  · decide

end CuptiTrace
